import Mathlib

/-!
# Presentation surface manager of imgui-vulkan-example

A shallow embedding of `src/main.cpp`: device and queue family selection,
`WIN_SIZE` parsing, and the per-frame acquire/submit/present cycle driven by
the render loop.  Calls into Vulkan, GLFW and Dear ImGui are external: their
results are read from an environment record and every call is appended to a
trace, so that "which calls were made" is a property of the final state.
-/

namespace ImguiVulkan

/-! ## Vulkan types -/

/-- Result codes of the Vulkan API that the program distinguishes or logs. -/
inductive VkResult
  | VK_SUCCESS
  | VK_NOT_READY
  | VK_TIMEOUT
  | VK_INCOMPLETE
  | VK_ERROR_OUT_OF_HOST_MEMORY
  | VK_ERROR_OUT_OF_DEVICE_MEMORY
  | VK_ERROR_INITIALIZATION_FAILED
  | VK_ERROR_DEVICE_LOST
  | VK_ERROR_SURFACE_LOST_KHR
  | VK_SUBOPTIMAL_KHR
  | VK_ERROR_OUT_OF_DATE_KHR
  deriving DecidableEq, Repr

/-- Device classes of `VkPhysicalDeviceProperties.deviceType`. -/
inductive VkPhysicalDeviceType
  | VK_PHYSICAL_DEVICE_TYPE_OTHER
  | VK_PHYSICAL_DEVICE_TYPE_INTEGRATED_GPU
  | VK_PHYSICAL_DEVICE_TYPE_DISCRETE_GPU
  | VK_PHYSICAL_DEVICE_TYPE_VIRTUAL_GPU
  | VK_PHYSICAL_DEVICE_TYPE_CPU
  deriving DecidableEq, Repr

/-- A physical device handle together with the device type that
`vkGetPhysicalDeviceProperties` reports for it. -/
structure VkPhysicalDevice where
  handle : Nat
  deviceType : VkPhysicalDeviceType
  deriving DecidableEq, Repr

/-- The `uint32_t` modulus. -/
def UINT32_MOD : Nat := 2 ^ 32

/-- The value `(uint32_t) -1`. -/
def UINT32_MAX : Nat := 2 ^ 32 - 1

/-- The bit `VK_QUEUE_GRAPHICS_BIT` of `VkQueueFlags`. -/
def VK_QUEUE_GRAPHICS_BIT : Nat := 1

/-- One entry of `vkGetPhysicalDeviceQueueFamilyProperties`; only the
capability flags (`VkQueueFlags`, 32 bits) are read by the program. -/
structure VkQueueFamilyProperties where
  queueFlags : Nat
  deriving DecidableEq, Repr

/-! ## The context -/

/-- The fields of `ImGui_ImplVulkanH_Window` that `main.cpp` reads or writes.
`Width` and `Height` are `int`; the three indices are `uint32_t`. -/
structure ImGui_ImplVulkanH_Window where
  Width : Int
  Height : Int
  FrameIndex : Nat
  ImageCount : Nat
  SemaphoreIndex : Nat
  deriving DecidableEq, Repr

/-- The fields of `struct context` that take part in selection, parsing and
the frame loop.  `vk_gpu = none` stands for `VK_NULL_HANDLE`. -/
structure context where
  gui_win : ImGui_ImplVulkanH_Window
  vk_gpu : Option VkPhysicalDevice
  vk_queue_family : Nat
  image_count : Int
  rebuild_swapchain : Bool
  w : Int
  h : Int
  show_demo_window : Bool
  deriving DecidableEq, Repr

/-- The initial value of the global `ctx_` (the member initialisers of
`struct context`; the window struct is zero-initialised). -/
def ctx_ : context :=
  { gui_win := { Width := 0, Height := 0, FrameIndex := 0, ImageCount := 0, SemaphoreIndex := 0 }
    vk_gpu := none
    vk_queue_family := UINT32_MAX
    image_count := 2
    rebuild_swapchain := false
    w := 640
    h := 480
    show_demo_window := true }

/-! ## select_gpu -/

/-- What the environment answers during `select_gpu`: the count written by the
first `vkEnumeratePhysicalDevices`, whether `malloc` returns a buffer, and the
result and devices written by the second enumeration (after which `cnt` is the
number of devices written, the length of `gpus`). -/
structure GpuEnum where
  cnt : Nat
  malloc_ok : Bool
  err : VkResult
  gpus : List VkPhysicalDevice

/-- How a selection function ends: it returns a result code and the updated
context, or it reads `gpus[gpu]` while the local `gpu` was never assigned. -/
inductive Outcome
  | ret (err : VkResult) (ctx : context)
  | unassigned_read (err : VkResult)
  deriving DecidableEq, Repr

/-- The loop of lines 89-96 over the devices not yet visited: `i` is the index
of the head of `rest`, `gpu` the current value of the local.  The first
discrete device assigns `gpu = i` and breaks. -/
def select_gpu_loop : List VkPhysicalDevice → Nat → Nat → Nat
  | [], _, gpu => gpu
  | d :: rest, i, gpu =>
    if d.deviceType = VkPhysicalDeviceType.VK_PHYSICAL_DEVICE_TYPE_DISCRETE_GPU then i
    else select_gpu_loop rest (i + 1) gpu

/-- The read `gpus[gpu]` at label `out`: outside the array it has no defined
value, which the model reports like an unassigned read. -/
def read_gpu (err : VkResult) (ctx : context) (gpus : List VkPhysicalDevice) (gpu : Nat) :
    Outcome :=
  match gpus[gpu]? with
  | some d => Outcome.ret err { ctx with vk_gpu := some d }
  | none => Outcome.unassigned_read err

/-- The function `select_gpu` (lines 63-102). -/
def select_gpu (env : GpuEnum) (ctx : context) : Outcome :=
  if env.cnt = 0 then Outcome.ret VkResult.VK_NOT_READY ctx
  else if env.malloc_ok = false then Outcome.ret VkResult.VK_ERROR_OUT_OF_HOST_MEMORY ctx
  else if env.err ≠ VkResult.VK_SUCCESS then
    -- goto out: the local gpu has not been assigned
    Outcome.unassigned_read env.err
  else
    let gpu := select_gpu_loop env.gpus 0 0
    read_gpu env.err ctx env.gpus gpu

/-- The value of the local `gpu` when `select_gpu` reaches the read
`gpus[gpu]` at label `out` (line 99): `none` when the function returns before
the label, `some none` when the label is reached by the `goto out` of line 85,
before the assignment `gpu = 0` of line 88, and `some (some k)` when it is
reached after the loop with `gpu = k`. -/
def gpu_at_read (env : GpuEnum) : Option (Option Nat) :=
  if env.cnt = 0 then none
  else if env.malloc_ok = false then none
  else if env.err ≠ VkResult.VK_SUCCESS then some none
  else some (some (select_gpu_loop env.gpus 0 0))

/-- A device is discrete. -/
def isDiscrete (d : VkPhysicalDevice) : Prop :=
  d.deviceType = VkPhysicalDeviceType.VK_PHYSICAL_DEVICE_TYPE_DISCRETE_GPU

instance (d : VkPhysicalDevice) : Decidable (isDiscrete d) := by
  unfold isDiscrete; infer_instance

/-! ## select_queue_family -/

/-- What the environment answers during `select_queue_family`: the count
written by the first query, whether `malloc` returns a buffer, and the family
properties written by the second query (`cnt` is then their number).
`presentSupport i` is what `vkGetPhysicalDeviceSurfaceSupportKHR` would answer
for family `i`; `select_queue_family` never asks. -/
structure QueueEnum where
  cnt : Nat
  malloc_ok : Bool
  queues : List VkQueueFamilyProperties
  presentSupport : Nat → Bool

/-- The test `queues[i].queueFlags & VK_QUEUE_GRAPHICS_BIT`. -/
def has_graphics (q : VkQueueFamilyProperties) : Bool :=
  (q.queueFlags &&& VK_QUEUE_GRAPHICS_BIT) != 0

/-- The loop of lines 123-128 over the families not yet visited: `i` is the
index of the head of `rest`, `family` the current `ctx->vk_queue_family`. -/
def select_queue_family_loop : List VkQueueFamilyProperties → Nat → Nat → Nat
  | [], _, family => family
  | q :: rest, i, family =>
    if has_graphics q then i
    else select_queue_family_loop rest (i + 1) family

/-- The function `select_queue_family` (lines 104-141). -/
def select_queue_family (env : QueueEnum) (ctx : context) : VkResult × context :=
  if env.cnt = 0 then (VkResult.VK_ERROR_INITIALIZATION_FAILED, ctx)
  else if env.malloc_ok = false then (VkResult.VK_ERROR_OUT_OF_HOST_MEMORY, ctx)
  else
    let ctx1 := { ctx with
      vk_queue_family := select_queue_family_loop env.queues 0 ctx.vk_queue_family }
    if ctx1.vk_queue_family ≠ UINT32_MAX then (VkResult.VK_SUCCESS, ctx1)
    else (VkResult.VK_ERROR_INITIALIZATION_FAILED, ctx1)

/-! ## init_window and the C library functions it calls -/

/-- The C library `isspace` in the "C" locale. -/
def isspace (c : Char) : Bool :=
  c.toNat = 32 || (9 ≤ c.toNat && c.toNat ≤ 13)

/-- The C library `isdigit`. -/
def isdigit (c : Char) : Bool :=
  48 ≤ c.toNat && c.toNat ≤ 57

/-- The value of a decimal digit character. -/
def digit_value (c : Char) : Nat :=
  c.toNat - 48

/-- The digit loop of `strtol` in base 10: consume digits, stop at the first
character that is not one. -/
def strtol_digits : List Char → Nat → Nat
  | [], acc => acc
  | c :: cs, acc =>
    if isdigit c then strtol_digits cs (acc * 10 + digit_value c) else acc

/-- The bounds of `long` (LP64). -/
def LONG_MAX : Int := 2 ^ 63 - 1

/-- The lower bound of `long` (LP64). -/
def LONG_MIN : Int := -(2 ^ 63)

/-- Skipping the leading white space of a C string. -/
def skip_space : List Char → List Char
  | [] => []
  | c :: cs => if isspace c then skip_space cs else c :: cs

/-- The C library `strtol(s, NULL, 10)`: skip white space, read an optional
sign, read digits, saturate at the bounds of `long`. -/
def strtol (s : List Char) : Int :=
  let v : Int :=
    match skip_space s with
    | [] => 0
    | c :: cs =>
      if c = '-' then -((strtol_digits cs 0 : Nat) : Int)
      else if c = '+' then ((strtol_digits cs 0 : Nat) : Int)
      else ((strtol_digits (c :: cs) 0 : Nat) : Int)
  if v > LONG_MAX then LONG_MAX else if v < LONG_MIN then LONG_MIN else v

/-- Conversion of a `long` to `int` (two's complement, 32 bits). -/
def long_to_int (v : Int) : Int :=
  (v + 2 ^ 31) % 2 ^ 32 - 2 ^ 31

/-- The C library `atoi`, which is `(int) strtol(s, NULL, 10)`. -/
def atoi (s : List Char) : Int :=
  long_to_int (strtol s)

/-- The C library `strchr(s, c)` for a character `c` other than NUL: the
suffix of `s` that starts at the first `c`, or `none` for `NULL`. -/
def strchr : List Char → Char → Option (List Char)
  | [], _ => none
  | d :: ds, c => if d = c then some (d :: ds) else strchr ds c

/-- What the environment answers during `init_window`: the value of
`getenv("WIN_SIZE")` (`none` when unset), whether `glfwCreateWindow` returns a
window, and `glfwVulkanSupported`. -/
structure WindowEnv where
  geom : Option (List Char)
  window_created : Bool
  vulkan_supported : Bool

/-- Lines 244-254 of `init_window`: the parsing of `WIN_SIZE` into `ctx->w`
and `ctx->h`. -/
def parse_win_size (geom : Option (List Char)) (ctx : context) : context :=
  match geom with
  | none => ctx
  | some g =>
    let ctx1 := { ctx with w := atoi g }
    match strchr g 'x' with
    | none => ctx1
    | some h_str => { ctx1 with h := atoi h_str.tail }

/-- The function `init_window` (lines 242-269). -/
def init_window (env : WindowEnv) (ctx : context) : Bool × context :=
  let ctx1 := parse_win_size env.geom ctx
  if env.window_created = false then (false, ctx1)
  else if env.vulkan_supported = false then (false, ctx1)
  else (true, ctx1)

/-- The decimal value of a string of digits, most significant digit first,
through Mathlib's `Nat.ofDigits`. -/
def decimal_value (ds : List Char) : Nat :=
  Nat.ofDigits 10 (ds.reverse.map fun c => c.toNat - '0'.toNat)

/-- The string `s` is a decimal numeral of the integer `v`: a non-empty run of
digits, or a minus sign followed by one. -/
def is_decimal_of (s : List Char) (v : Int) : Prop :=
  ∃ ds : List Char, ds ≠ [] ∧ (∀ c ∈ ds, c.isDigit = true) ∧
    ((s = ds ∧ v = (decimal_value ds : Int)) ∨
      (s = '-' :: ds ∧ v = -(decimal_value ds : Int)))

/-- The largest `int`. -/
def INT_MAX : Int := 2 ^ 31 - 1

/-- The smallest `int`. -/
def INT_MIN : Int := -(2 ^ 31)

/-! ## The frame loop -/

/-- The external calls of the frame loop, in the order the trace records
them.  Semaphores are named by their index in `FrameSemaphores`, frames by
their index in `Frames`. -/
inductive Call
  | glfwPollEvents
  | glfwGetFramebufferSize
  | ImGui_ImplVulkan_SetMinImageCount (min_image_count : Int)
  | ImGui_ImplVulkanH_CreateOrResizeWindow (w : Int) (h : Int) (min_image_count : Int)
  | ImGui_NewFrame
  | ImGui_ShowDemoWindow
  | ImGui_Render
  | vkAcquireNextImageKHR (img_sem : Nat)
  | vkWaitForFences (frame : Nat)
  | vkResetFences (frame : Nat)
  | vkResetCommandPool (frame : Nat)
  | vkBeginCommandBuffer (frame : Nat)
  | vkCmdBeginRenderPass (frame : Nat)
  | ImGui_ImplVulkan_RenderDrawData (frame : Nat)
  | vkCmdEndRenderPass (frame : Nat)
  | vkEndCommandBuffer (frame : Nat)
  | vkQueueSubmit (frame : Nat) (img_sem : Nat) (rend_sem : Nat)
  | vkQueuePresentKHR (rend_sem : Nat) (image : Nat)
  deriving DecidableEq, Repr

/-- What the environment answers during one iteration of the loop in `main`.
`fb_w`, `fb_h` is the size `glfwGetFramebufferSize` reports; `resized` is the
effect of `ImGui_ImplVulkanH_CreateOrResizeWindow` on the window struct, given
the requested width, height and minimum image count; `display_x`, `display_y`
is `DisplaySize` of the draw data (window dimensions stored as floats, of which
only the comparison with zero is used); `image_index` is what
`vkAcquireNextImageKHR` writes through its last argument, if anything; the
remaining fields are the results of the Vulkan calls. -/
structure FrameEnv where
  should_close : Bool
  fb_w : Int
  fb_h : Int
  resized : ImGui_ImplVulkanH_Window → Int → Int → Int → ImGui_ImplVulkanH_Window
  demo_open : Bool
  display_x : Int
  display_y : Int
  acquire : VkResult
  image_index : Option Nat
  wait_fences : VkResult
  reset_fences : VkResult
  reset_command_pool : VkResult
  begin_command_buffer : VkResult
  end_command_buffer : VkResult
  queue_submit : VkResult
  queue_present : VkResult

/-- The program state of the frame loop: the context and the trace of
external calls made so far, oldest first. -/
structure State where
  ctx : context
  trace : List Call
  deriving DecidableEq, Repr

/-- Record an external call. -/
def State.emit (s : State) (c : Call) : State :=
  { s with trace := s.trace ++ [c] }

/-- The result is `VK_ERROR_OUT_OF_DATE_KHR` or `VK_SUBOPTIMAL_KHR`. -/
def stale_surface (err : VkResult) : Bool :=
  err = VkResult.VK_ERROR_OUT_OF_DATE_KHR || err = VkResult.VK_SUBOPTIMAL_KHR

/-- The conversion `uint8_t(x)` of an index. -/
def to_uint8 (x : Nat) : Nat := x % 256

/-- The function `render_frame` (lines 279-357).  Each failed call returns at
once; the result of `vkQueueSubmit`, the last call, changes nothing, as the
function ends after it either way. -/
def render_frame (env : FrameEnv) (s : State) : State :=
  let sem_idx := to_uint8 s.ctx.gui_win.SemaphoreIndex
  let s1 := s.emit (Call.vkAcquireNextImageKHR sem_idx)
  let s1 := { s1 with ctx := { s1.ctx with gui_win := { s1.ctx.gui_win with
    FrameIndex := env.image_index.getD s1.ctx.gui_win.FrameIndex } } }
  if stale_surface env.acquire then
    { s1 with ctx := { s1.ctx with rebuild_swapchain := true } }
  else if env.acquire ≠ VkResult.VK_SUCCESS then s1
  else
    let fd := s1.ctx.gui_win.FrameIndex
    let s2 := s1.emit (Call.vkWaitForFences fd)
    if env.wait_fences ≠ VkResult.VK_SUCCESS then s2
    else
      let s3 := s2.emit (Call.vkResetFences fd)
      if env.reset_fences ≠ VkResult.VK_SUCCESS then s3
      else
        let s4 := s3.emit (Call.vkResetCommandPool fd)
        if env.reset_command_pool ≠ VkResult.VK_SUCCESS then s4
        else
          let s5 := s4.emit (Call.vkBeginCommandBuffer fd)
          if env.begin_command_buffer ≠ VkResult.VK_SUCCESS then s5
          else
            let s6 := s5.emit (Call.vkCmdBeginRenderPass fd)
            let s7 := s6.emit (Call.ImGui_ImplVulkan_RenderDrawData fd)
            let s8 := s7.emit (Call.vkCmdEndRenderPass fd)
            let s9 := s8.emit (Call.vkEndCommandBuffer fd)
            if env.end_command_buffer ≠ VkResult.VK_SUCCESS then s9
            else s9.emit (Call.vkQueueSubmit fd sem_idx sem_idx)

/-- The function `present_gui` (lines 359-390).  `SemaphoreIndex` is a
`uint32_t`: the increment wraps at 2^32 before the remainder is taken. -/
def present_gui (env : FrameEnv) (s : State) : State :=
  if s.ctx.rebuild_swapchain then s
  else
    let win := s.ctx.gui_win
    let i := to_uint8 win.SemaphoreIndex
    let s1 := s.emit (Call.vkQueuePresentKHR i win.FrameIndex)
    if stale_surface env.queue_present then
      { s1 with ctx := { s1.ctx with rebuild_swapchain := true } }
    else if env.queue_present ≠ VkResult.VK_SUCCESS then s1
    else
      { s1 with ctx := { s1.ctx with gui_win := { s1.ctx.gui_win with
        SemaphoreIndex := (win.SemaphoreIndex + 1) % UINT32_MOD % win.ImageCount } } }

/-- The function `is_minimized` (lines 411-414) on the two components of
`DisplaySize`. -/
def is_minimized (display_x display_y : Int) : Bool :=
  decide (display_x ≤ 0) || decide (display_y ≤ 0)

/-- The function `clear_window` (lines 416-425): it writes `ClearValue` only,
which is not among the modelled fields. -/
def clear_window (s : State) : State := s

/-- The function `resize_window` (lines 427-436). -/
def resize_window (env : FrameEnv) (s : State) : State :=
  let s1 := s.emit (Call.ImGui_ImplVulkan_SetMinImageCount s.ctx.image_count)
  let s2 := s1.emit
    (Call.ImGui_ImplVulkanH_CreateOrResizeWindow s1.ctx.w s1.ctx.h s1.ctx.image_count)
  let s2 := { s2 with ctx := { s2.ctx with
    gui_win := env.resized s2.ctx.gui_win s2.ctx.w s2.ctx.h s2.ctx.image_count } }
  { s2 with ctx := { s2.ctx with
    gui_win := { s2.ctx.gui_win with FrameIndex := 0 }
    rebuild_swapchain := false } }

/-- Lines 440-448 of `render_gui`: the Dear ImGui calls that produce the draw
data. -/
def build_draw_data (env : FrameEnv) (s : State) : State :=
  let s1 := s.emit Call.ImGui_NewFrame
  let s2 :=
    if s1.ctx.show_demo_window then
      { (s1.emit Call.ImGui_ShowDemoWindow) with
        ctx := { s1.ctx with show_demo_window := env.demo_open } }
    else s1
  s2.emit Call.ImGui_Render

/-- The function `render_gui` (lines 438-454). -/
def render_gui (env : FrameEnv) (s : State) : State :=
  let s1 := build_draw_data env s
  if !is_minimized env.display_x env.display_y then
    present_gui env (render_frame env (clear_window s1))
  else s1

/-- Lines 604-605 of `main`: `glfwGetFramebufferSize` writes the reported size
into `gui_win.Width` and `gui_win.Height`. -/
def get_framebuffer_size (env : FrameEnv) (s : State) : State :=
  let s1 := s.emit Call.glfwGetFramebufferSize
  { s1 with ctx := { s1.ctx with gui_win := { s1.ctx.gui_win with
    Width := env.fb_w, Height := env.fb_h } } }

/-- Lines 603-609 of `main`: when a rebuild is pending, query the framebuffer
size and rebuild if it is positive in both dimensions. -/
def rebuild_if_pending (env : FrameEnv) (s : State) : State :=
  if s.ctx.rebuild_swapchain then
    let s1 := get_framebuffer_size env s
    if s1.ctx.gui_win.Width > 0 ∧ s1.ctx.gui_win.Height > 0 then resize_window env s1
    else s1
  else s

/-- The body of the loop in `main` (lines 601-611). -/
def main_loop_body (env : FrameEnv) (s : State) : State :=
  render_gui env (rebuild_if_pending env (s.emit Call.glfwPollEvents))

/-- The loop of `main` (lines 600-612) over the answers of the environment,
one record per iteration; it ends when `glfwWindowShouldClose` is true or the
answers are used up. -/
def main_loop : List FrameEnv → State → State
  | [], s => s
  | env :: envs, s =>
    if env.should_close then s else main_loop envs (main_loop_body env s)

/-- The calls made between two states of one run. -/
def new_calls (before after : State) : List Call :=
  after.trace.drop before.trace.length

/-- The call belongs to the six-step frame sequence (acquire, fence wait,
fence reset, command pool reset, recording, submit, present). -/
def Call.is_frame_step : Call → Bool
  | Call.vkAcquireNextImageKHR _ => true
  | Call.vkWaitForFences _ => true
  | Call.vkResetFences _ => true
  | Call.vkResetCommandPool _ => true
  | Call.vkBeginCommandBuffer _ => true
  | Call.vkCmdBeginRenderPass _ => true
  | Call.ImGui_ImplVulkan_RenderDrawData _ => true
  | Call.vkCmdEndRenderPass _ => true
  | Call.vkEndCommandBuffer _ => true
  | Call.vkQueueSubmit _ _ _ => true
  | Call.vkQueuePresentKHR _ _ => true
  | _ => false

/-- The call is `ImGui_ImplVulkanH_CreateOrResizeWindow`, the swapchain
rebuild. -/
def Call.is_rebuild : Call → Bool
  | Call.ImGui_ImplVulkanH_CreateOrResizeWindow _ _ _ => true
  | _ => false

/-! ## Sample environments and states -/

/-- Answers of an environment in which every call succeeds: the framebuffer
and the display have size `(w, h)`, image 0 is acquired, and the rebuild gives
the window the requested size and image count and keeps its indices. -/
def answers_ok (w h : Int) : FrameEnv :=
  { should_close := false
    fb_w := w
    fb_h := h
    resized := fun win rw rh n => { win with Width := rw, Height := rh, ImageCount := n.toNat }
    demo_open := true
    display_x := w
    display_y := h
    acquire := VkResult.VK_SUCCESS
    image_index := some 0
    wait_fences := VkResult.VK_SUCCESS
    reset_fences := VkResult.VK_SUCCESS
    reset_command_pool := VkResult.VK_SUCCESS
    begin_command_buffer := VkResult.VK_SUCCESS
    end_command_buffer := VkResult.VK_SUCCESS
    queue_submit := VkResult.VK_SUCCESS
    queue_present := VkResult.VK_SUCCESS }

/-- The state after initialisation with the given window struct and rebuild
flag: `ctx->w`, `ctx->h` hold the initial 640 by 480, the trace is empty. -/
def state_with (win : ImGui_ImplVulkanH_Window) (rebuild : Bool) : State :=
  { ctx := { ctx_ with gui_win := win, rebuild_swapchain := rebuild }
    trace := [] }

/-- The indices of the window struct are in the range in which a run keeps
them: `ImageCount` is a positive `uint32_t` and the increment of
`SemaphoreIndex` does not wrap.  It holds when the loop is entered
(`SemaphoreIndex = 0`, at least one image), and every write of
`SemaphoreIndex` (lines 388-389) leaves it below `ImageCount`. -/
def indices_in_range (win : ImGui_ImplVulkanH_Window) : Prop :=
  0 < win.ImageCount ∧ win.ImageCount < UINT32_MOD ∧ win.SemaphoreIndex + 1 < UINT32_MOD

/-! ### Lemmas on the device loop -/

lemma select_gpu_loop_spec (rest : List VkPhysicalDevice) (i gpu : Nat) :
    ((∀ d ∈ rest, ¬ isDiscrete d) ∧ select_gpu_loop rest i gpu = gpu) ∨
    (∃ k d, rest[k]? = some d ∧ isDiscrete d ∧ select_gpu_loop rest i gpu = i + k ∧
      ∀ j e, j < k → rest[j]? = some e → ¬ isDiscrete e) := by
  induction rest generalizing i with
  | nil => left; simp [select_gpu_loop]
  | cons d rest ih =>
    by_cases hd : isDiscrete d
    · right
      refine ⟨0, d, by simp, hd, ?_, ?_⟩
      · have hd2 := hd
        unfold isDiscrete at hd2
        simp [select_gpu_loop, hd2]
      · intro j e hj; omega
    · have hd2 := hd
      unfold isDiscrete at hd2
      rcases ih (i + 1) with ⟨hno, hr⟩ | ⟨k, e, hk, he, hr, hmin⟩
      · left
        refine ⟨?_, ?_⟩
        · intro x hx
          rcases List.mem_cons.mp hx with rfl | hx
          · exact hd
          · exact hno x hx
        · simp [select_gpu_loop, hd2, hr]
      · right
        refine ⟨k + 1, e, by simpa using hk, he, ?_, ?_⟩
        · simp [select_gpu_loop, hd2, hr]; omega
        · intro j x hj hx
          cases j with
          | zero =>
            simp at hx
            subst hx
            exact hd
          | succ j =>
            simp at hx
            exact hmin j x (by omega) hx

/-! ### C1: device selection -/

/-- C1: when the devices are enumerated (the count is not zero, the buffer is
allocated, the second enumeration succeeds with a non-empty list),
`select_gpu` returns `VK_SUCCESS` and stores the device at some index `k` of
the list, where `k` is the smallest index of a discrete device when there is
one and `0` when there is none; in particular a single discrete device among
integrated ones is selected at whatever position `p` it stands. -/
theorem select_gpu_prefers_discrete (env : GpuEnum) (ctx : context)
    (hcnt : env.cnt ≠ 0) (hmalloc : env.malloc_ok = true)
    (herr : env.err = VkResult.VK_SUCCESS) (hne : env.gpus ≠ []) :
    ∃ k d, env.gpus[k]? = some d ∧
      select_gpu env ctx = Outcome.ret VkResult.VK_SUCCESS { ctx with vk_gpu := some d } ∧
      ((∃ x ∈ env.gpus, isDiscrete x) →
        isDiscrete d ∧ ∀ j e, j < k → env.gpus[j]? = some e → ¬ isDiscrete e) ∧
      ((∀ x ∈ env.gpus, ¬ isDiscrete x) → k = 0) ∧
      (∀ p x, env.gpus[p]? = some x → isDiscrete x →
        (∀ j e, j ≠ p → env.gpus[j]? = some e →
          e.deviceType = VkPhysicalDeviceType.VK_PHYSICAL_DEVICE_TYPE_INTEGRATED_GPU) →
        k = p ∧ d = x) := by
  have hsel : ∀ k d, env.gpus[k]? = some d → select_gpu_loop env.gpus 0 0 = k →
      select_gpu env ctx = Outcome.ret VkResult.VK_SUCCESS { ctx with vk_gpu := some d } := by
    intro k d hk hloop
    simp [select_gpu, hcnt, hmalloc, herr, read_gpu, hloop, hk]
  rcases select_gpu_loop_spec env.gpus 0 0 with ⟨hno, hr⟩ | ⟨k, d, hk, hd, hr, hmin⟩
  · obtain ⟨d, rest, hgp⟩ := List.exists_cons_of_ne_nil hne
    have h0 : env.gpus[0]? = some d := by simp [hgp]
    refine ⟨0, d, h0, hsel 0 d h0 hr, ?_, fun _ => rfl, ?_⟩
    · rintro ⟨x, hx, hxd⟩
      exact absurd hxd (hno x hx)
    · intro p x hp hx _
      exact absurd hx (hno x (List.getElem?_mem hp))
  · have hr0 : select_gpu_loop env.gpus 0 0 = k := by omega
    refine ⟨k, d, hk, hsel k d hk hr0, fun _ => ⟨hd, hmin⟩, ?_, ?_⟩
    · intro hno
      exact absurd hd (hno d (List.getElem?_mem hk))
    · intro p x hp hx hint
      have hkp : k = p := by
        by_contra hne2
        have := hint k d hne2 hk
        unfold isDiscrete at hd
        rw [hd] at this
        exact absurd this (by decide)
      subst hkp
      rw [hk] at hp
      exact ⟨rfl, Option.some.inj hp⟩

/-- C1, at a concrete list: three devices, the discrete one last. -/
theorem select_gpu_prefers_discrete_witness :
    ∃ (k : Nat) (d : VkPhysicalDevice),
      ([⟨10, VkPhysicalDeviceType.VK_PHYSICAL_DEVICE_TYPE_INTEGRATED_GPU⟩,
        ⟨11, VkPhysicalDeviceType.VK_PHYSICAL_DEVICE_TYPE_INTEGRATED_GPU⟩,
        ⟨12, VkPhysicalDeviceType.VK_PHYSICAL_DEVICE_TYPE_DISCRETE_GPU⟩] :
          List VkPhysicalDevice)[k]? = some d ∧
      select_gpu
        { cnt := 3, malloc_ok := true, err := VkResult.VK_SUCCESS,
          gpus := [⟨10, VkPhysicalDeviceType.VK_PHYSICAL_DEVICE_TYPE_INTEGRATED_GPU⟩,
            ⟨11, VkPhysicalDeviceType.VK_PHYSICAL_DEVICE_TYPE_INTEGRATED_GPU⟩,
            ⟨12, VkPhysicalDeviceType.VK_PHYSICAL_DEVICE_TYPE_DISCRETE_GPU⟩] } ctx_
        = Outcome.ret VkResult.VK_SUCCESS { ctx_ with vk_gpu := some d } ∧
      (k = 2 ∧ d = ⟨12, VkPhysicalDeviceType.VK_PHYSICAL_DEVICE_TYPE_DISCRETE_GPU⟩) := by
  obtain ⟨k, d, h1, h2, _, _, h5⟩ := select_gpu_prefers_discrete
    { cnt := 3, malloc_ok := true, err := VkResult.VK_SUCCESS,
      gpus := [⟨10, VkPhysicalDeviceType.VK_PHYSICAL_DEVICE_TYPE_INTEGRATED_GPU⟩,
        ⟨11, VkPhysicalDeviceType.VK_PHYSICAL_DEVICE_TYPE_INTEGRATED_GPU⟩,
        ⟨12, VkPhysicalDeviceType.VK_PHYSICAL_DEVICE_TYPE_DISCRETE_GPU⟩] } ctx_
    (by decide) rfl rfl (by decide)
  refine ⟨k, d, h1, h2, h5 2 ⟨12, VkPhysicalDeviceType.VK_PHYSICAL_DEVICE_TYPE_DISCRETE_GPU⟩
    rfl rfl ?_⟩
  intro j e hj he
  rcases j with _ | _ | _ | j
  · simp at he; rw [← he]
  · simp at he; rw [← he]
  · exact absurd rfl hj
  · simp at he

/-! ### C2: queue family selection -/

lemma select_queue_family_loop_spec (rest : List VkQueueFamilyProperties) (i family : Nat) :
    ((∀ q ∈ rest, has_graphics q = false) ∧
      select_queue_family_loop rest i family = family) ∨
    (∃ k q, rest[k]? = some q ∧ has_graphics q = true ∧
      select_queue_family_loop rest i family = i + k ∧
      ∀ j e, j < k → rest[j]? = some e → has_graphics e = false) := by
  induction rest generalizing i with
  | nil => left; simp [select_queue_family_loop]
  | cons d rest ih =>
    cases hd : has_graphics d with
    | true =>
      right
      refine ⟨0, d, by simp, hd, by simp [select_queue_family_loop, hd], ?_⟩
      intro j e hj; omega
    | false =>
      rcases ih (i + 1) with ⟨hno, hr⟩ | ⟨k, e, hk, he, hr, hmin⟩
      · left
        refine ⟨?_, by simp [select_queue_family_loop, hd, hr]⟩
        intro x hx
        rcases List.mem_cons.mp hx with rfl | hx
        · exact hd
        · exact hno x hx
      · right
        refine ⟨k + 1, e, by simpa using hk, he, ?_, ?_⟩
        · simp [select_queue_family_loop, hd, hr]; omega
        · intro j x hj hx
          cases j with
          | zero =>
            simp at hx
            subst hx
            exact hd
          | succ j =>
            simp at hx
            exact hmin j x (by omega) hx

/-- C2: from a context whose queue family is unresolved, with the family list
read into an allocated buffer (its length, a `uint32_t`, is the reported
count), `select_queue_family` returns `VK_SUCCESS` and stores the smallest
index whose flags have the graphics bit when there is one, and otherwise
returns `VK_ERROR_INITIALIZATION_FAILED` with the context unchanged; the
outcome is the same whatever the presentation support of the families. -/
theorem select_queue_family_first_graphics (env : QueueEnum) (ctx : context)
    (hctx : ctx.vk_queue_family = UINT32_MAX) (hcnt : env.cnt = env.queues.length)
    (hlen : env.queues.length < UINT32_MOD) (hmalloc : env.malloc_ok = true) :
    ((∃ q ∈ env.queues, has_graphics q = true) →
      ∃ k q, env.queues[k]? = some q ∧ has_graphics q = true ∧
        (∀ j e, j < k → env.queues[j]? = some e → has_graphics e = false) ∧
        select_queue_family env ctx =
          (VkResult.VK_SUCCESS, { ctx with vk_queue_family := k })) ∧
    ((∀ q ∈ env.queues, has_graphics q = false) →
      select_queue_family env ctx = (VkResult.VK_ERROR_INITIALIZATION_FAILED, ctx) ∧
      (select_queue_family env ctx).2.vk_queue_family = UINT32_MAX) ∧
    (∀ present : Nat → Bool,
      select_queue_family { env with presentSupport := present } ctx =
        select_queue_family env ctx) := by
  refine ⟨?_, ?_, fun _ => rfl⟩
  · rintro ⟨x, hx, hxg⟩
    rcases select_queue_family_loop_spec env.queues 0 ctx.vk_queue_family with
      ⟨hno, _⟩ | ⟨k, q, hk, hq, hr, hmin⟩
    · rw [hno x hx] at hxg
      exact absurd hxg (by decide)
    · refine ⟨k, q, hk, hq, hmin, ?_⟩
      have hklt : k < env.queues.length := by
        rcases List.getElem?_eq_some.mp hk with ⟨h, _⟩
        exact h
      have hne : env.cnt ≠ 0 := by omega
      have hr0 : select_queue_family_loop env.queues 0 ctx.vk_queue_family = k := by omega
      have hk2 : k ≠ UINT32_MAX := by
        unfold UINT32_MOD at hlen
        unfold UINT32_MAX
        omega
      simp [select_queue_family, hne, hmalloc, hr0, hk2]
  · intro hno
    have hres : select_queue_family env ctx =
        (VkResult.VK_ERROR_INITIALIZATION_FAILED, ctx) := by
      rcases select_queue_family_loop_spec env.queues 0 ctx.vk_queue_family with
        ⟨_, hr⟩ | ⟨k, q, hk, hq, _, _⟩
      · by_cases hc : env.cnt = 0
        · simp [select_queue_family, hc]
        · rw [hctx] at hr
          have hc2 : ctx = { ctx with vk_queue_family := UINT32_MAX } := by
            rw [← hctx]
          simp only [select_queue_family, hc, hmalloc, hctx, hr]
          simp
          exact hc2.symm
      · rw [hno q (List.getElem?_mem hk)] at hq
        exact absurd hq (by decide)
    rw [hres]
    exact ⟨rfl, hctx⟩

/-- C2, at the list `[transferOnly, graphicsAndPresent, graphicsOnly]`
(transfer is bit 4, graphics bit 1): index 1 is stored. -/
theorem select_queue_family_first_graphics_witness :
    select_queue_family
      { cnt := 3, malloc_ok := true, queues := [⟨4⟩, ⟨1⟩, ⟨1⟩],
        presentSupport := fun i => decide (i = 1) } ctx_ =
      (VkResult.VK_SUCCESS, { ctx_ with vk_queue_family := 1 }) := by
  obtain ⟨h1, _, _⟩ := select_queue_family_first_graphics
    { cnt := 3, malloc_ok := true, queues := [⟨4⟩, ⟨1⟩, ⟨1⟩],
      presentSupport := fun i => decide (i = 1) } ctx_ rfl rfl (by decide) rfl
  obtain ⟨k, q, hk, hq, hmin, hres⟩ := h1 ⟨⟨1⟩, by simp, by decide⟩
  rcases k with _ | _ | k
  · simp at hk; rw [← hk] at hq; exact absurd hq (by decide)
  · exact hres
  · exact absurd (hmin 1 ⟨1⟩ (by omega) rfl) (by decide)

/-! ### C3: parsing of WIN_SIZE -/

lemma isdigit_of_isDigit (c : Char) (h : c.isDigit = true) : isdigit c = true := by
  simp only [Char.isDigit, Bool.and_eq_true, decide_eq_true_eq] at h
  simp only [isdigit, Bool.and_eq_true, decide_eq_true_eq]
  obtain ⟨h1, h2⟩ := h
  have h1n : (48 : UInt32).toNat ≤ c.val.toNat := h1
  have h2n : c.val.toNat ≤ (57 : UInt32).toNat := h2
  exact ⟨h1n, h2n⟩

lemma isspace_of_isdigit (c : Char) (h : isdigit c = true) : isspace c = false := by
  simp only [isdigit, Bool.and_eq_true, decide_eq_true_eq] at h
  simp only [isspace, Bool.or_eq_false_iff, decide_eq_false_iff_not, Bool.and_eq_false_iff]
  omega

lemma ne_x_of_isdigit (c : Char) (h : isdigit c = true) : c ≠ 'x' := by
  rintro rfl
  exact absurd h (by decide)

lemma ne_minus_of_isdigit (c : Char) (h : isdigit c = true) : c ≠ '-' := by
  rintro rfl
  exact absurd h (by decide)

lemma ne_plus_of_isdigit (c : Char) (h : isdigit c = true) : c ≠ '+' := by
  rintro rfl
  exact absurd h (by decide)

lemma decimal_value_cons (c : Char) (cs : List Char) :
    decimal_value (c :: cs) = digit_value c * 10 ^ cs.length + decimal_value cs := by
  simp [decimal_value, digit_value, Nat.ofDigits_append, Nat.ofDigits_singleton]
  ring

lemma decimal_value_snoc (cs : List Char) (c : Char) :
    decimal_value (cs ++ [c]) = 10 * decimal_value cs + digit_value c := by
  simp [decimal_value, digit_value, Nat.ofDigits_cons]
  ring

lemma strtol_digits_cons (c : Char) (cs : List Char) (acc : Nat) (h : isdigit c = true) :
    strtol_digits (c :: cs) acc = strtol_digits cs (acc * 10 + digit_value c) := by
  simp [strtol_digits, h]

lemma skip_space_cons (c : Char) (cs : List Char) (h : isspace c = false) :
    skip_space (c :: cs) = c :: cs := by
  simp [skip_space, h]

/-- The digit loop reads a run of digits up to a character that is not one. -/
lemma strtol_digits_append (ds rest : List Char) (acc : Nat)
    (hds : ∀ c ∈ ds, c.isDigit = true)
    (hrest : ∀ c r, rest = c :: r → isdigit c = false) :
    strtol_digits (ds ++ rest) acc = acc * 10 ^ ds.length + decimal_value ds := by
  induction ds generalizing acc with
  | nil =>
    cases rest with
    | nil => simp [strtol_digits, decimal_value]
    | cons c r => simp [strtol_digits, hrest c r rfl, decimal_value]
  | cons c cs ih =>
    have hc : isdigit c = true := isdigit_of_isDigit c (hds c (List.mem_cons_self c cs))
    have hcs : ∀ x ∈ cs, x.isDigit = true := fun x hx => hds x (List.mem_cons_of_mem c hx)
    rw [List.cons_append, strtol_digits_cons c _ acc hc, ih _ hcs, decimal_value_cons]
    simp only [List.length_cons]
    ring

lemma long_to_int_of_range (v : Int) (h1 : INT_MIN ≤ v) (h2 : v ≤ INT_MAX) :
    long_to_int v = v := by
  unfold INT_MIN at h1
  unfold INT_MAX at h2
  unfold long_to_int
  norm_num at h1 h2 ⊢
  omega

/-- On a decimal numeral in `int` range, followed by nothing or by a character
that is not a digit, `atoi` returns the number. -/
lemma atoi_decimal (s rest : List Char) (v : Int) (hs : is_decimal_of s v)
    (h1 : INT_MIN ≤ v) (h2 : v ≤ INT_MAX)
    (hrest : ∀ c r, rest = c :: r → isdigit c = false) :
    atoi (s ++ rest) = v := by
  obtain ⟨ds, hne, hds, hcase⟩ := hs
  have hval := strtol_digits_append ds rest 0 hds hrest
  simp only [zero_mul, zero_add] at hval
  have hclamp : ∀ u : Int, INT_MIN ≤ u → u ≤ INT_MAX →
      (if u > LONG_MAX then LONG_MAX else if u < LONG_MIN then LONG_MIN else u) = u := by
    intro u hu1 hu2
    unfold INT_MIN at hu1
    unfold INT_MAX at hu2
    unfold LONG_MAX LONG_MIN
    norm_num at hu1 hu2 ⊢
    rw [if_neg (by omega), if_neg (by omega)]
  rcases hcase with ⟨rfl, rfl⟩ | ⟨rfl, rfl⟩
  · obtain ⟨c, cs, rfl⟩ := List.exists_cons_of_ne_nil hne
    have hc : isdigit c = true := isdigit_of_isDigit c (hds c (List.mem_cons_self c cs))
    have hstr : strtol ((c :: cs) ++ rest) = (decimal_value (c :: cs) : Int) := by
      have hval2 : strtol_digits (c :: (cs ++ rest)) 0 = decimal_value (c :: cs) := hval
      unfold strtol
      rw [List.cons_append, skip_space_cons c _ (isspace_of_isdigit c hc)]
      simp only [ne_minus_of_isdigit c hc, ne_plus_of_isdigit c hc, if_false, hval2]
      exact hclamp _ h1 h2
    unfold atoi
    rw [hstr]
    exact long_to_int_of_range _ h1 h2
  · have hsp : isspace '-' = false := by decide
    have hstr : strtol (('-' :: ds) ++ rest) = -(decimal_value ds : Int) := by
      unfold strtol
      rw [List.cons_append, skip_space_cons _ _ hsp]
      simp only [if_true, hval]
      exact hclamp _ h1 h2
    unfold atoi
    rw [hstr]
    exact long_to_int_of_range _ h1 h2

lemma strchr_append_x (s hs : List Char) (h : ∀ c ∈ s, c ≠ 'x') :
    strchr (s ++ 'x' :: hs) 'x' = some ('x' :: hs) := by
  induction s with
  | nil => simp [strchr]
  | cons c cs ih =>
    have hc : c ≠ 'x' := h c (List.mem_cons_self c cs)
    simp only [List.cons_append, strchr, hc, if_false]
    exact ih (fun x hx => h x (List.mem_cons_of_mem c hx))

lemma strchr_none (s : List Char) (h : ∀ c ∈ s, c ≠ 'x') : strchr s 'x' = none := by
  induction s with
  | nil => simp [strchr]
  | cons c cs ih =>
    have hc : c ≠ 'x' := h c (List.mem_cons_self c cs)
    simp only [strchr, hc, if_false]
    exact ih (fun x hx => h x (List.mem_cons_of_mem c hx))

lemma no_x_of_decimal (s : List Char) (v : Int) (hs : is_decimal_of s v) :
    ∀ c ∈ s, c ≠ 'x' := by
  obtain ⟨ds, _, hds, hcase⟩ := hs
  have hd : ∀ c ∈ ds, c ≠ 'x' := fun c hc => ne_x_of_isdigit c (isdigit_of_isDigit c (hds c hc))
  rcases hcase with ⟨rfl, _⟩ | ⟨rfl, _⟩
  · exact hd
  · intro c hc
    rcases List.mem_cons.mp hc with rfl | hc
    · decide
    · exact hd c hc

lemma digitChar_decimal (k : Nat) (hk : k < 10) :
    (Nat.digitChar k).isDigit = true ∧ digit_value (Nat.digitChar k) = k := by
  interval_cases k <;> exact ⟨rfl, rfl⟩

/-- The digits that `Nat.toDigitsCore` puts in front of its accumulator are a
decimal numeral of its argument. -/
lemma toDigitsCore_decimal (f : Nat) : ∀ n tl, n < f →
    ∃ ds, Nat.toDigitsCore 10 f n tl = ds ++ tl ∧ ds ≠ [] ∧
      (∀ c ∈ ds, c.isDigit = true) ∧ decimal_value ds = n := by
  induction f with
  | zero => intro n tl h; omega
  | succ f ih =>
    intro n tl hn
    have hd := digitChar_decimal (n % 10) (Nat.mod_lt n (by decide))
    by_cases h0 : n / 10 = 0
    · refine ⟨[Nat.digitChar (n % 10)], ?_, by simp, ?_, ?_⟩
      · simp [Nat.toDigitsCore, h0]
      · intro c hc
        rw [List.mem_singleton.mp hc]
        exact hd.1
      · rw [decimal_value_cons, hd.2]
        simp [decimal_value]
        omega
    · obtain ⟨ds, heq, _, hds, hv⟩ := ih (n / 10) (Nat.digitChar (n % 10) :: tl) (by omega)
      refine ⟨ds ++ [Nat.digitChar (n % 10)], ?_, by simp, ?_, ?_⟩
      · simp [Nat.toDigitsCore, h0, heq]
      · intro c hc
        rcases List.mem_append.mp hc with hc | hc
        · exact hds c hc
        · rw [List.mem_singleton.mp hc]
          exact hd.1
      · rw [decimal_value_snoc, hv, hd.2]
        omega

lemma toDigits_decimal (n : Nat) : is_decimal_of (Nat.toDigits 10 n) (n : Int) := by
  obtain ⟨ds, heq, hne, hds, hv⟩ := toDigitsCore_decimal (n + 1) n [] (by omega)
  refine ⟨ds, hne, hds, Or.inl ⟨?_, by rw [hv]⟩⟩
  simpa [Nat.toDigits] using heq

lemma init_window_snd (env : WindowEnv) (ctx : context) :
    (init_window env ctx).2 = parse_win_size env.geom ctx := by
  unfold init_window
  simp only
  split_ifs <;> rfl

lemma parse_win_size_pair (ws hs : List Char) (W H : Int) (ctx : context)
    (hw : is_decimal_of ws W) (hh : is_decimal_of hs H)
    (hw1 : INT_MIN ≤ W) (hw2 : W ≤ INT_MAX) (hh1 : INT_MIN ≤ H) (hh2 : H ≤ INT_MAX) :
    parse_win_size (some (ws ++ 'x' :: hs)) ctx = { ctx with w := W, h := H } := by
  have hx : isdigit 'x' = false := by decide
  have ha : atoi (ws ++ 'x' :: hs) = W :=
    atoi_decimal ws ('x' :: hs) W hw hw1 hw2 (by
      intro c r hcr
      rw [(List.cons.inj hcr).1.symm]
      exact hx)
  have hb : atoi hs = H := by
    have := atoi_decimal hs [] H hh hh1 hh2 (by intro c r hcr; cases hcr)
    simpa using this
  simp only [parse_win_size, strchr_append_x ws hs (no_x_of_decimal ws W hw), ha,
    List.tail_cons, hb]

lemma parse_win_size_single (ws : List Char) (W : Int) (ctx : context)
    (hw : is_decimal_of ws W) (hw1 : INT_MIN ≤ W) (hw2 : W ≤ INT_MAX) :
    parse_win_size (some ws) ctx = { ctx with w := W } := by
  have ha : atoi ws = W := by
    have := atoi_decimal ws [] W hw hw1 hw2 (by intro c r hcr; cases hcr)
    simpa using this
  simp only [parse_win_size, strchr_none ws (no_x_of_decimal ws W hw), ha]

lemma nat_ge_int_min (n : Nat) : INT_MIN ≤ (n : Int) := by
  unfold INT_MIN
  have : (0 : Int) ≤ (n : Int) := Int.ofNat_nonneg n
  norm_num
  omega

/-- C3: when `WIN_SIZE` is a decimal numeral of `W`, the character `x` and a
decimal numeral of `H`, both in `int` range, `init_window` leaves `w = W` and
`h = H` (in particular for the numerals that print the naturals `W` and `H`,
and `1280x720` gives 1280 and 720); when it is a decimal numeral of `W` alone,
`w = W` and `h` keeps its value, the default 480 from the initial context
(`1280` gives 1280 and 480); when `WIN_SIZE` is unset, the initial context
keeps 640 and 480. -/
theorem init_window_parses_win_size (env : WindowEnv) (ctx : context) :
    (∀ ws hs W H, is_decimal_of ws W → is_decimal_of hs H →
      INT_MIN ≤ W → W ≤ INT_MAX → INT_MIN ≤ H → H ≤ INT_MAX →
      env.geom = some (ws ++ 'x' :: hs) →
      (init_window env ctx).2.w = W ∧ (init_window env ctx).2.h = H) ∧
    (∀ W H : Nat, (W : Int) ≤ INT_MAX → (H : Int) ≤ INT_MAX →
      env.geom = some (Nat.toDigits 10 W ++ 'x' :: Nat.toDigits 10 H) →
      (init_window env ctx).2.w = W ∧ (init_window env ctx).2.h = H) ∧
    (env.geom = some ['1', '2', '8', '0', 'x', '7', '2', '0'] →
      (init_window env ctx_).2.w = 1280 ∧ (init_window env ctx_).2.h = 720) ∧
    (∀ ws W, is_decimal_of ws W → INT_MIN ≤ W → W ≤ INT_MAX →
      env.geom = some ws →
      (init_window env ctx).2.w = W ∧ (init_window env ctx).2.h = ctx.h) ∧
    (∀ W : Nat, (W : Int) ≤ INT_MAX → env.geom = some (Nat.toDigits 10 W) →
      (init_window env ctx).2.w = W ∧ (init_window env ctx).2.h = ctx.h) ∧
    (env.geom = some ['1', '2', '8', '0'] →
      (init_window env ctx_).2.w = 1280 ∧ (init_window env ctx_).2.h = 480) ∧
    (env.geom = none →
      (init_window env ctx_).2.w = 640 ∧ (init_window env ctx_).2.h = 480) := by
  have hpair : ∀ (c0 : context) ws hs W H, is_decimal_of ws W → is_decimal_of hs H →
      INT_MIN ≤ W → W ≤ INT_MAX → INT_MIN ≤ H → H ≤ INT_MAX →
      env.geom = some (ws ++ 'x' :: hs) →
      (init_window env c0).2.w = W ∧ (init_window env c0).2.h = H := by
    intro c0 ws hs W H hw hh hw1 hw2 hh1 hh2 hg
    rw [init_window_snd, hg, parse_win_size_pair ws hs W H c0 hw hh hw1 hw2 hh1 hh2]
    exact ⟨rfl, rfl⟩
  have hsingle : ∀ (c0 : context) ws W, is_decimal_of ws W → INT_MIN ≤ W → W ≤ INT_MAX →
      env.geom = some ws →
      (init_window env c0).2.w = W ∧ (init_window env c0).2.h = c0.h := by
    intro c0 ws W hw hw1 hw2 hg
    rw [init_window_snd, hg, parse_win_size_single ws W c0 hw hw1 hw2]
    exact ⟨rfl, rfl⟩
  refine ⟨hpair ctx, ?_, ?_, hsingle ctx, ?_, ?_, ?_⟩
  · intro W H hW hH hg
    exact hpair ctx _ _ _ _ (toDigits_decimal W) (toDigits_decimal H)
      (nat_ge_int_min W) hW (nat_ge_int_min H) hH hg
  · intro hg
    exact hpair ctx_ (Nat.toDigits 10 1280) (Nat.toDigits 10 720) 1280 720
      (toDigits_decimal 1280) (toDigits_decimal 720)
      (by decide) (by decide) (by decide) (by decide) hg
  · intro W hW hg
    exact hsingle ctx _ _ (toDigits_decimal W) (nat_ge_int_min W) hW hg
  · intro hg
    exact hsingle ctx_ (Nat.toDigits 10 1280) 1280 (toDigits_decimal 1280)
      (by decide) (by decide) hg
  · intro hg
    rw [init_window_snd, hg]
    exact ⟨rfl, rfl⟩

/-- C3, at `WIN_SIZE=1280x720`, at `WIN_SIZE=1280` and with `WIN_SIZE` unset. -/
theorem init_window_parses_win_size_witness :
    ((init_window
      { geom := some ['1', '2', '8', '0', 'x', '7', '2', '0'],
        window_created := true, vulkan_supported := true } ctx_).2.w = 1280 ∧
      (init_window
      { geom := some ['1', '2', '8', '0', 'x', '7', '2', '0'],
        window_created := true, vulkan_supported := true } ctx_).2.h = 720) ∧
    ((init_window
      { geom := some ['1', '2', '8', '0'],
        window_created := true, vulkan_supported := true } ctx_).2.w = 1280 ∧
      (init_window
      { geom := some ['1', '2', '8', '0'],
        window_created := true, vulkan_supported := true } ctx_).2.h = 480) ∧
    ((init_window
      { geom := none,
        window_created := true, vulkan_supported := true } ctx_).2.w = 640 ∧
      (init_window
      { geom := none,
        window_created := true, vulkan_supported := true } ctx_).2.h = 480) :=
  ⟨(init_window_parses_win_size
      { geom := some ['1', '2', '8', '0', 'x', '7', '2', '0'],
        window_created := true, vulkan_supported := true } ctx_).2.2.1 rfl,
    (init_window_parses_win_size
      { geom := some ['1', '2', '8', '0'],
        window_created := true, vulkan_supported := true } ctx_).2.2.2.2.2.1 rfl,
    (init_window_parses_win_size
      { geom := none,
        window_created := true, vulkan_supported := true } ctx_).2.2.2.2.2.2 rfl⟩

/-! ### Traces -/

lemma render_frame_trace (env : FrameEnv) (s : State) :
    s.trace <+: (render_frame env s).trace := by
  unfold render_frame
  simp only [State.emit]
  split_ifs <;> simp

lemma present_gui_trace (env : FrameEnv) (s : State) :
    s.trace <+: (present_gui env s).trace := by
  unfold present_gui
  simp only [State.emit]
  split_ifs <;> simp

lemma resize_window_trace (env : FrameEnv) (s : State) :
    (resize_window env s).trace = s.trace ++
      [Call.ImGui_ImplVulkan_SetMinImageCount s.ctx.image_count,
        Call.ImGui_ImplVulkanH_CreateOrResizeWindow s.ctx.w s.ctx.h s.ctx.image_count] := by
  simp [resize_window, State.emit]

lemma build_draw_data_trace (env : FrameEnv) (s : State) :
    s.trace <+: (build_draw_data env s).trace := by
  unfold build_draw_data
  simp only [State.emit]
  split_ifs <;> simp

lemma render_gui_trace (env : FrameEnv) (s : State) :
    s.trace <+: (render_gui env s).trace := by
  unfold render_gui
  simp only
  split_ifs
  · exact ((build_draw_data_trace env s).trans (render_frame_trace env _)).trans
      (present_gui_trace env _)
  · exact build_draw_data_trace env s

lemma new_calls_append (a b c : State) (h1 : a.trace <+: b.trace) (h2 : b.trace <+: c.trace) :
    new_calls a c = new_calls a b ++ new_calls b c := by
  obtain ⟨l1, h1⟩ := h1
  obtain ⟨l2, h2⟩ := h2
  simp [new_calls, ← h2, ← h1]

lemma new_calls_of_trace (a b : State) (l : List Call) (h : b.trace = a.trace ++ l) :
    new_calls a b = l := by
  simp [new_calls, h]

lemma render_frame_no_rebuild (env : FrameEnv) (s : State) :
    (new_calls s (render_frame env s)).countP Call.is_rebuild = 0 := by
  unfold render_frame
  simp only [State.emit]
  split_ifs <;> simp [new_calls, Call.is_rebuild]

lemma present_gui_no_rebuild (env : FrameEnv) (s : State) :
    (new_calls s (present_gui env s)).countP Call.is_rebuild = 0 := by
  unfold present_gui
  simp only [State.emit]
  split_ifs <;> simp [new_calls, Call.is_rebuild]

lemma build_draw_data_spec (env : FrameEnv) (s : State) :
    (build_draw_data env s).ctx.gui_win = s.ctx.gui_win ∧
    (build_draw_data env s).ctx.rebuild_swapchain = s.ctx.rebuild_swapchain ∧
    (build_draw_data env s).ctx.w = s.ctx.w ∧
    (build_draw_data env s).ctx.h = s.ctx.h ∧
    (build_draw_data env s).ctx.image_count = s.ctx.image_count ∧
    (new_calls s (build_draw_data env s)).filter Call.is_frame_step = [] ∧
    (new_calls s (build_draw_data env s)).countP Call.is_rebuild = 0 := by
  unfold build_draw_data
  simp only [State.emit]
  split_ifs <;> simp [new_calls, Call.is_rebuild, Call.is_frame_step]

lemma render_gui_no_rebuild (env : FrameEnv) (s : State) :
    (new_calls s (render_gui env s)).countP Call.is_rebuild = 0 := by
  have hb := build_draw_data_spec env s
  unfold render_gui
  simp only [clear_window]
  split_ifs
  · rw [new_calls_append s (render_frame env (build_draw_data env s)) _
      ((build_draw_data_trace env s).trans (render_frame_trace env _))
      (present_gui_trace env _),
      new_calls_append s (build_draw_data env s) _ (build_draw_data_trace env s)
        (render_frame_trace env _)]
    simp only [List.countP_append, hb.2.2.2.2.2.2, present_gui_no_rebuild, zero_add]
    exact render_frame_no_rebuild env _
  · exact hb.2.2.2.2.2.2

lemma rebuild_if_pending_trace (env : FrameEnv) (s : State) :
    s.trace <+: (rebuild_if_pending env s).trace := by
  unfold rebuild_if_pending
  simp only
  split_ifs
  · rw [resize_window_trace]
    simp [get_framebuffer_size, State.emit]
  · simp [get_framebuffer_size, State.emit]
  · exact List.prefix_refl _

/-- The calls of lines 603-609: none belongs to the frame sequence, and the
rebuild is called once when it is pending and the reported size is positive,
and not at all otherwise. -/
lemma rebuild_if_pending_calls (env : FrameEnv) (s : State) :
    (new_calls s (rebuild_if_pending env s)).filter Call.is_frame_step = [] ∧
    (new_calls s (rebuild_if_pending env s)).countP Call.is_rebuild =
      if s.ctx.rebuild_swapchain = true ∧ 0 < env.fb_w ∧ 0 < env.fb_h then 1 else 0 := by
  unfold rebuild_if_pending
  cases hflag : s.ctx.rebuild_swapchain with
  | false => simp [new_calls]
  | true =>
    by_cases hpos : 0 < env.fb_w ∧ 0 < env.fb_h
    · have hpos2 : (get_framebuffer_size env s).ctx.gui_win.Width > 0 ∧
          (get_framebuffer_size env s).ctx.gui_win.Height > 0 := hpos
      simp only [if_true, hpos2, hpos, and_self]
      rw [new_calls_of_trace s _
        [Call.glfwGetFramebufferSize,
          Call.ImGui_ImplVulkan_SetMinImageCount s.ctx.image_count,
          Call.ImGui_ImplVulkanH_CreateOrResizeWindow s.ctx.w s.ctx.h s.ctx.image_count] (by
        rw [resize_window_trace]
        simp [get_framebuffer_size, State.emit])]
      simp [Call.is_frame_step, Call.is_rebuild]
    · have hpos2 : ¬ ((get_framebuffer_size env s).ctx.gui_win.Width > 0 ∧
          (get_framebuffer_size env s).ctx.gui_win.Height > 0) := hpos
      simp only [if_true, hpos2, hpos, if_false, and_false, true_and]
      simp [new_calls, get_framebuffer_size, State.emit, Call.is_frame_step, Call.is_rebuild]

lemma main_loop_body_trace (env : FrameEnv) (s : State) :
    s.trace <+: (main_loop_body env s).trace := by
  unfold main_loop_body
  refine List.IsPrefix.trans ?_
    ((rebuild_if_pending_trace env _).trans (render_gui_trace env _))
  simp [State.emit]

/-- The calls of one iteration of the loop: the poll, the calls of lines
603-609, the calls of `render_gui`. -/
lemma main_loop_body_calls (env : FrameEnv) (s : State) :
    new_calls s (main_loop_body env s) =
      Call.glfwPollEvents ::
        (new_calls (s.emit Call.glfwPollEvents)
            (rebuild_if_pending env (s.emit Call.glfwPollEvents)) ++
          new_calls (rebuild_if_pending env (s.emit Call.glfwPollEvents))
            (main_loop_body env s)) := by
  have h1 : s.trace <+: (s.emit Call.glfwPollEvents).trace := by simp [State.emit]
  have hdef : main_loop_body env s =
      render_gui env (rebuild_if_pending env (s.emit Call.glfwPollEvents)) := rfl
  rw [hdef, new_calls_append s (s.emit Call.glfwPollEvents) _ h1
      ((rebuild_if_pending_trace env _).trans (render_gui_trace env _)),
    new_calls_append (s.emit Call.glfwPollEvents)
      (rebuild_if_pending env (s.emit Call.glfwPollEvents)) _
      (rebuild_if_pending_trace env _) (render_gui_trace env _)]
  simp [new_calls, State.emit]

/-- The rebuild is called in an iteration of the loop once when the rebuild
flag is set and the reported framebuffer size is positive, and not at all
otherwise. -/
lemma main_loop_body_rebuild_count (env : FrameEnv) (s : State) :
    (new_calls s (main_loop_body env s)).countP Call.is_rebuild =
      if s.ctx.rebuild_swapchain = true ∧ 0 < env.fb_w ∧ 0 < env.fb_h then 1 else 0 := by
  rw [main_loop_body_calls]
  have h := (rebuild_if_pending_calls env (s.emit Call.glfwPollEvents)).2
  have h2 : new_calls (rebuild_if_pending env (s.emit Call.glfwPollEvents))
      (main_loop_body env s) = new_calls (rebuild_if_pending env (s.emit Call.glfwPollEvents))
      (render_gui env (rebuild_if_pending env (s.emit Call.glfwPollEvents))) := rfl
  rw [List.countP_cons, List.countP_append, h, h2, render_gui_no_rebuild]
  simp [State.emit, Call.is_rebuild]

lemma main_loop_trace (envs : List FrameEnv) (s : State) :
    s.trace <+: (main_loop envs s).trace := by
  induction envs generalizing s with
  | nil => exact List.prefix_refl _
  | cons env envs ih =>
    unfold main_loop
    split_ifs
    · exact List.prefix_refl _
    · exact (main_loop_body_trace env s).trans (ih _)

lemma main_loop_body_no_rebuild_of_zero (env : FrameEnv) (s : State)
    (h : env.fb_w ≤ 0 ∨ env.fb_h ≤ 0) :
    (new_calls s (main_loop_body env s)).countP Call.is_rebuild = 0 := by
  rw [main_loop_body_rebuild_count, if_neg]
  omega

/-! ### The indices stay in range -/

lemma render_frame_indices (env : FrameEnv) (s : State) :
    (render_frame env s).ctx.gui_win.SemaphoreIndex = s.ctx.gui_win.SemaphoreIndex ∧
    (render_frame env s).ctx.gui_win.ImageCount = s.ctx.gui_win.ImageCount := by
  unfold render_frame
  simp only [State.emit]
  split_ifs <;> exact ⟨rfl, rfl⟩

/-- The value `present_gui` stores after a successful present, in the 32-bit
arithmetic of the code. -/
lemma present_gui_stores (env : FrameEnv) (s : State)
    (hflag : s.ctx.rebuild_swapchain = false)
    (hres : env.queue_present = VkResult.VK_SUCCESS) :
    (present_gui env s).ctx.gui_win.SemaphoreIndex =
      (s.ctx.gui_win.SemaphoreIndex + 1) % UINT32_MOD % s.ctx.gui_win.ImageCount := by
  simp [present_gui, hflag, hres, stale_surface, State.emit]

lemma present_gui_unchanged (env : FrameEnv) (s : State)
    (hnot : ¬ (s.ctx.rebuild_swapchain = false ∧ env.queue_present = VkResult.VK_SUCCESS)) :
    (present_gui env s).ctx.gui_win.SemaphoreIndex = s.ctx.gui_win.SemaphoreIndex := by
  cases hflag : s.ctx.rebuild_swapchain with
  | true => simp [present_gui, hflag]
  | false =>
    have hres : env.queue_present ≠ VkResult.VK_SUCCESS := fun h => hnot ⟨hflag, h⟩
    unfold present_gui
    simp only [hflag]
    split_ifs <;> simp_all [State.emit]

lemma present_gui_image_count (env : FrameEnv) (s : State) :
    (present_gui env s).ctx.gui_win.ImageCount = s.ctx.gui_win.ImageCount := by
  unfold present_gui
  simp only [State.emit]
  split_ifs <;> rfl

/-- A present leaves the indices in range: a successful one stores an index
below `ImageCount`, any other leaves the index as it was. -/
lemma present_gui_in_range (env : FrameEnv) (s : State)
    (h : indices_in_range s.ctx.gui_win) :
    indices_in_range (present_gui env s).ctx.gui_win := by
  obtain ⟨h1, h2, h3⟩ := h
  unfold indices_in_range
  rw [present_gui_image_count]
  refine ⟨h1, h2, ?_⟩
  by_cases hc : s.ctx.rebuild_swapchain = false ∧ env.queue_present = VkResult.VK_SUCCESS
  · rw [present_gui_stores env s hc.1 hc.2]
    have := Nat.mod_lt ((s.ctx.gui_win.SemaphoreIndex + 1) % UINT32_MOD) h1
    omega
  · rw [present_gui_unchanged env s hc]
    exact h3

lemma render_gui_in_range (env : FrameEnv) (s : State)
    (h : indices_in_range s.ctx.gui_win) :
    indices_in_range (render_gui env s).ctx.gui_win := by
  have hb : indices_in_range (build_draw_data env s).ctx.gui_win := by
    rw [(build_draw_data_spec env s).1]
    exact h
  unfold render_gui
  simp only [clear_window]
  split_ifs
  · apply present_gui_in_range
    unfold indices_in_range
    rw [(render_frame_indices env _).1, (render_frame_indices env _).2]
    exact hb
  · exact hb

lemma rebuild_if_pending_in_range (env : FrameEnv) (s : State)
    (henv : ∀ win w h n, indices_in_range win → indices_in_range (env.resized win w h n))
    (h : indices_in_range s.ctx.gui_win) :
    indices_in_range (rebuild_if_pending env s).ctx.gui_win := by
  unfold rebuild_if_pending
  simp only
  split_ifs
  · exact henv _ _ _ _ h
  · exact h
  · exact h

/-- Every state of a run of the loop has its indices in range, when the state
at its entry has and the external build-or-resize call keeps them so. -/
lemma main_loop_in_range (envs : List FrameEnv) (s : State)
    (henv : ∀ e ∈ envs, ∀ win w h n,
      indices_in_range win → indices_in_range (e.resized win w h n))
    (h : indices_in_range s.ctx.gui_win) :
    indices_in_range (main_loop envs s).ctx.gui_win := by
  induction envs generalizing s with
  | nil => exact h
  | cons e envs ih =>
    unfold main_loop
    split_ifs
    · exact h
    · apply ih _ (fun x hx => henv x (List.mem_cons_of_mem e hx))
      unfold main_loop_body
      apply render_gui_in_range
      exact rebuild_if_pending_in_range e _ (henv e (List.mem_cons_self e envs)) h

/-! ### C4: rotation of the semaphore index -/

/-- C4: for every state with `ImageCount > 0` (and `SemaphoreIndex` a
`uint32_t` below `2^32 - 1`, as in every state of a run, where it is below the
image count), `present_gui` sets `SemaphoreIndex` to
`(SemaphoreIndex + 1) mod ImageCount` when the present call is issued (rebuild
flag clear) and returns `VK_SUCCESS`; in every other case (present skipped
because the flag is set, out-of-date or suboptimal, any other result)
`SemaphoreIndex` is unchanged.  The present call is issued when the flag is
clear, and a skipped present changes nothing at all. -/
theorem present_gui_semaphore_index (env : FrameEnv) (s : State)
    (hic : 0 < s.ctx.gui_win.ImageCount)
    (hs : s.ctx.gui_win.SemaphoreIndex + 1 < UINT32_MOD) :
    (s.ctx.rebuild_swapchain = false → env.queue_present = VkResult.VK_SUCCESS →
      (present_gui env s).ctx.gui_win.SemaphoreIndex =
        (s.ctx.gui_win.SemaphoreIndex + 1) % s.ctx.gui_win.ImageCount ∧
      (present_gui env s).ctx.gui_win.SemaphoreIndex < s.ctx.gui_win.ImageCount) ∧
    (¬ (s.ctx.rebuild_swapchain = false ∧ env.queue_present = VkResult.VK_SUCCESS) →
      (present_gui env s).ctx.gui_win.SemaphoreIndex = s.ctx.gui_win.SemaphoreIndex) ∧
    (s.ctx.rebuild_swapchain = false →
      new_calls s (present_gui env s) =
        [Call.vkQueuePresentKHR (to_uint8 s.ctx.gui_win.SemaphoreIndex)
          s.ctx.gui_win.FrameIndex]) ∧
    (s.ctx.rebuild_swapchain = true → present_gui env s = s) := by
  refine ⟨?_, present_gui_unchanged env s, ?_, ?_⟩
  · intro hflag hres
    have hval := present_gui_stores env s hflag hres
    rw [Nat.mod_eq_of_lt hs] at hval
    refine ⟨hval, ?_⟩
    rw [hval]
    exact Nat.mod_lt _ hic
  · intro hflag
    unfold present_gui
    simp only [hflag, State.emit, Bool.false_eq_true, if_false]
    split_ifs <;> simp [new_calls]
  · intro hflag
    simp [present_gui, hflag]

/-- C4, at a state with two images and index 1: a successful present stores
index 0; and at a state with three images and index 0 a present that reports
out-of-date leaves index 0. -/
theorem present_gui_semaphore_index_witness :
    (present_gui (answers_ok 640 480)
      (state_with ⟨640, 480, 0, 2, 1⟩ false)).ctx.gui_win.SemaphoreIndex = (1 + 1) % 2 ∧
    (present_gui { answers_ok 640 480 with queue_present := VkResult.VK_ERROR_OUT_OF_DATE_KHR }
      (state_with ⟨640, 480, 0, 3, 0⟩ false)).ctx.gui_win.SemaphoreIndex = 0 :=
  ⟨((present_gui_semaphore_index (answers_ok 640 480) (state_with ⟨640, 480, 0, 2, 1⟩ false)
      (by decide) (by decide)).1 rfl rfl).1,
    (present_gui_semaphore_index
      { answers_ok 640 480 with queue_present := VkResult.VK_ERROR_OUT_OF_DATE_KHR }
      (state_with ⟨640, 480, 0, 3, 0⟩ false) (by decide) (by decide)).2.1 (by decide)⟩

/-! ### C6: nothing is drawn while minimized -/

/-- C6: when the display size of the draw data is zero or negative in either
dimension, `render_gui` stops after producing the draw data: it makes no call
of the frame sequence (acquire, fence, recording, submit, present) and leaves
`SemaphoreIndex`, `FrameIndex` and the rebuild flag unchanged; and in a run of
loop iterations in each of which the reported framebuffer size is zero (or
negative) in either dimension, the rebuild is never called. -/
theorem minimized_skips_frame (env : FrameEnv) (s : State) :
    ((env.display_x ≤ 0 ∨ env.display_y ≤ 0) →
      render_gui env s = build_draw_data env s ∧
      (new_calls s (render_gui env s)).filter Call.is_frame_step = [] ∧
      (render_gui env s).ctx.gui_win.SemaphoreIndex = s.ctx.gui_win.SemaphoreIndex ∧
      (render_gui env s).ctx.gui_win.FrameIndex = s.ctx.gui_win.FrameIndex ∧
      (render_gui env s).ctx.rebuild_swapchain = s.ctx.rebuild_swapchain) ∧
    ((env.fb_w ≤ 0 ∨ env.fb_h ≤ 0) →
      (new_calls s (main_loop_body env s)).countP Call.is_rebuild = 0) ∧
    (∀ envs : List FrameEnv, (∀ e ∈ envs, e.fb_w ≤ 0 ∨ e.fb_h ≤ 0) →
      (new_calls s (main_loop envs s)).countP Call.is_rebuild = 0) := by
  refine ⟨?_, main_loop_body_no_rebuild_of_zero env s, ?_⟩
  · intro hmin
    have hm : is_minimized env.display_x env.display_y = true := by
      simp only [is_minimized, Bool.or_eq_true, decide_eq_true_eq]
      exact hmin
    have heq : render_gui env s = build_draw_data env s := by
      simp [render_gui, hm]
    have hb := build_draw_data_spec env s
    rw [heq]
    exact ⟨rfl, hb.2.2.2.2.2.1, by rw [hb.1], by rw [hb.1], hb.2.1⟩
  · intro envs
    induction envs generalizing s with
    | nil => intro _; simp [main_loop, new_calls]
    | cons e envs ih =>
      intro hall
      unfold main_loop
      split_ifs
      · simp [new_calls]
      · rw [new_calls_append s (main_loop_body e s) _ (main_loop_body_trace e s)
          (main_loop_trace envs _), List.countP_append,
          main_loop_body_no_rebuild_of_zero e s (hall e (List.mem_cons_self e envs)),
          ih (main_loop_body e s) (fun x hx => hall x (List.mem_cons_of_mem e hx))]

/-- C6, at a minimized window (framebuffer and display of size 0 by 0). -/
theorem minimized_skips_frame_witness :
    (new_calls (state_with ⟨640, 480, 1, 2, 1⟩ false)
      (render_gui (answers_ok 0 0) (state_with ⟨640, 480, 1, 2, 1⟩ false))).filter
        Call.is_frame_step = [] ∧
    (new_calls (state_with ⟨640, 480, 1, 2, 1⟩ true)
      (main_loop_body (answers_ok 0 0) (state_with ⟨640, 480, 1, 2, 1⟩ true))).countP
        Call.is_rebuild = 0 :=
  ⟨((minimized_skips_frame (answers_ok 0 0) (state_with ⟨640, 480, 1, 2, 1⟩ false)).1
      (Or.inl (by decide))).2.1,
    (minimized_skips_frame (answers_ok 0 0) (state_with ⟨640, 480, 1, 2, 1⟩ true)).2.1
      (Or.inl (by decide))⟩

/-! ### C7: what the rebuild resets -/

/-- C7: after `resize_window` the frame index is 0 and the rebuild flag is
clear, and `SemaphoreIndex` is the value the external build-or-resize call
left in the window struct: `resize_window` does not write it, so it keeps its
old value when that call keeps it. -/
theorem resize_window_resets_frame_index (env : FrameEnv) (s : State) :
    (resize_window env s).ctx.gui_win.FrameIndex = 0 ∧
    (resize_window env s).ctx.rebuild_swapchain = false ∧
    (resize_window env s).ctx.gui_win.SemaphoreIndex =
      (env.resized s.ctx.gui_win s.ctx.w s.ctx.h s.ctx.image_count).SemaphoreIndex ∧
    ((env.resized s.ctx.gui_win s.ctx.w s.ctx.h s.ctx.image_count).SemaphoreIndex =
        s.ctx.gui_win.SemaphoreIndex →
      (resize_window env s).ctx.gui_win.SemaphoreIndex = s.ctx.gui_win.SemaphoreIndex) := by
  refine ⟨rfl, rfl, rfl, fun h => ?_⟩
  rw [← h]
  rfl

/-- C7, at a state with frame index 1 and semaphore index 1: the rebuild
leaves frame index 0 and semaphore index 1. -/
theorem resize_window_resets_frame_index_witness :
    (resize_window (answers_ok 800 600)
      (state_with ⟨640, 480, 1, 2, 1⟩ true)).ctx.gui_win.FrameIndex = 0 ∧
    (resize_window (answers_ok 800 600)
      (state_with ⟨640, 480, 1, 2, 1⟩ true)).ctx.gui_win.SemaphoreIndex = 1 :=
  ⟨(resize_window_resets_frame_index (answers_ok 800 600)
      (state_with ⟨640, 480, 1, 2, 1⟩ true)).1,
    (resize_window_resets_frame_index (answers_ok 800 600)
      (state_with ⟨640, 480, 1, 2, 1⟩ true)).2.2.2 rfl⟩

/-! ### The calls of one frame -/

lemma render_gui_visible (env : FrameEnv) (s : State)
    (hvis : 0 < env.display_x ∧ 0 < env.display_y) :
    render_gui env s = present_gui env (render_frame env (build_draw_data env s)) := by
  have hm : is_minimized env.display_x env.display_y = false := by
    simp only [is_minimized, Bool.or_eq_false_iff, decide_eq_false_iff_not]
    omega
  simp [render_gui, hm, clear_window]

lemma render_frame_steps (env : FrameEnv) (s : State) :
    (new_calls s (render_frame env s)).filter Call.is_frame_step =
      new_calls s (render_frame env s) := by
  unfold render_frame
  simp only [State.emit]
  split_ifs <;> simp [new_calls, Call.is_frame_step]

lemma present_gui_steps (env : FrameEnv) (s : State) :
    (new_calls s (present_gui env s)).filter Call.is_frame_step =
      new_calls s (present_gui env s) := by
  unfold present_gui
  simp only [State.emit]
  split_ifs <;> simp [new_calls, Call.is_frame_step]

/-- The calls of the frame sequence made by `render_gui` on a visible window
are those of `render_frame` followed by those of `present_gui`. -/
lemma render_gui_frame_steps (env : FrameEnv) (s : State)
    (hvis : 0 < env.display_x ∧ 0 < env.display_y) :
    (new_calls s (render_gui env s)).filter Call.is_frame_step =
      new_calls (build_draw_data env s) (render_frame env (build_draw_data env s)) ++
        new_calls (render_frame env (build_draw_data env s))
          (present_gui env (render_frame env (build_draw_data env s))) := by
  rw [render_gui_visible env s hvis,
    new_calls_append s (render_frame env (build_draw_data env s)) _
      ((build_draw_data_trace env s).trans (render_frame_trace env _))
      (present_gui_trace env _),
    new_calls_append s (build_draw_data env s) _ (build_draw_data_trace env s)
      (render_frame_trace env _)]
  simp only [List.filter_append, (build_draw_data_spec env s).2.2.2.2.2.1, List.nil_append,
    render_frame_steps, present_gui_steps]

lemma render_frame_stale (env : FrameEnv) (s : State)
    (h : env.acquire = VkResult.VK_ERROR_OUT_OF_DATE_KHR ∨
      env.acquire = VkResult.VK_SUBOPTIMAL_KHR) :
    new_calls s (render_frame env s) =
      [Call.vkAcquireNextImageKHR (to_uint8 s.ctx.gui_win.SemaphoreIndex)] ∧
    (render_frame env s).ctx.rebuild_swapchain = true := by
  have hs : stale_surface env.acquire = true := by
    rcases h with h | h <;> simp [stale_surface, h]
  simp [render_frame, hs, State.emit, new_calls]

lemma render_frame_acquire_first (env : FrameEnv) (s : State) :
    ∃ rest, new_calls s (render_frame env s) =
      Call.vkAcquireNextImageKHR (to_uint8 s.ctx.gui_win.SemaphoreIndex) :: rest := by
  unfold render_frame
  simp only [State.emit]
  split_ifs <;> simp [new_calls]

/-- When every call of `render_frame` up to the end of the recording succeeds,
it makes the ten calls from the acquire to the submit, on the frame whose
index the acquire call wrote, and leaves the rebuild flag and the semaphore
index as they were. -/
lemma render_frame_ok (env : FrameEnv) (s : State)
    (h1 : env.acquire = VkResult.VK_SUCCESS) (h2 : env.wait_fences = VkResult.VK_SUCCESS)
    (h3 : env.reset_fences = VkResult.VK_SUCCESS)
    (h4 : env.reset_command_pool = VkResult.VK_SUCCESS)
    (h5 : env.begin_command_buffer = VkResult.VK_SUCCESS)
    (h6 : env.end_command_buffer = VkResult.VK_SUCCESS) :
    new_calls s (render_frame env s) =
      [Call.vkAcquireNextImageKHR (to_uint8 s.ctx.gui_win.SemaphoreIndex),
        Call.vkWaitForFences (env.image_index.getD s.ctx.gui_win.FrameIndex),
        Call.vkResetFences (env.image_index.getD s.ctx.gui_win.FrameIndex),
        Call.vkResetCommandPool (env.image_index.getD s.ctx.gui_win.FrameIndex),
        Call.vkBeginCommandBuffer (env.image_index.getD s.ctx.gui_win.FrameIndex),
        Call.vkCmdBeginRenderPass (env.image_index.getD s.ctx.gui_win.FrameIndex),
        Call.ImGui_ImplVulkan_RenderDrawData (env.image_index.getD s.ctx.gui_win.FrameIndex),
        Call.vkCmdEndRenderPass (env.image_index.getD s.ctx.gui_win.FrameIndex),
        Call.vkEndCommandBuffer (env.image_index.getD s.ctx.gui_win.FrameIndex),
        Call.vkQueueSubmit (env.image_index.getD s.ctx.gui_win.FrameIndex)
          (to_uint8 s.ctx.gui_win.SemaphoreIndex) (to_uint8 s.ctx.gui_win.SemaphoreIndex)] ∧
    (render_frame env s).ctx.rebuild_swapchain = s.ctx.rebuild_swapchain ∧
    (render_frame env s).ctx.gui_win.SemaphoreIndex = s.ctx.gui_win.SemaphoreIndex ∧
    (render_frame env s).ctx.gui_win.FrameIndex =
      env.image_index.getD s.ctx.gui_win.FrameIndex := by
  simp [render_frame, h1, h2, h3, h4, h5, h6, stale_surface, State.emit, new_calls]

lemma present_gui_issued (env : FrameEnv) (s : State)
    (h : s.ctx.rebuild_swapchain = false) :
    new_calls s (present_gui env s) =
      [Call.vkQueuePresentKHR (to_uint8 s.ctx.gui_win.SemaphoreIndex)
        s.ctx.gui_win.FrameIndex] := by
  unfold present_gui
  simp only [h, State.emit, Bool.false_eq_true, if_false]
  split_ifs <;> simp [new_calls]

lemma present_gui_skipped (env : FrameEnv) (s : State)
    (h : s.ctx.rebuild_swapchain = true) :
    present_gui env s = s := by
  simp [present_gui, h]

lemma filter_steps_main_loop_body (env : FrameEnv) (s : State) :
    (new_calls s (main_loop_body env s)).filter Call.is_frame_step =
      (new_calls (rebuild_if_pending env (s.emit Call.glfwPollEvents))
        (render_gui env (rebuild_if_pending env (s.emit Call.glfwPollEvents)))).filter
          Call.is_frame_step := by
  rw [main_loop_body_calls]
  have hdef : main_loop_body env s =
      render_gui env (rebuild_if_pending env (s.emit Call.glfwPollEvents)) := rfl
  rw [hdef]
  simp [List.filter_cons, List.filter_append,
    (rebuild_if_pending_calls env (s.emit Call.glfwPollEvents)).1, Call.is_frame_step]

lemma present_gui_ok_flag (env : FrameEnv) (s : State)
    (h : s.ctx.rebuild_swapchain = false)
    (hp : env.queue_present = VkResult.VK_SUCCESS) :
    (present_gui env s).ctx.rebuild_swapchain = false := by
  simp [present_gui, h, hp, stale_surface, State.emit]

lemma rebuild_if_pending_positive (env : FrameEnv) (s : State)
    (hflag : s.ctx.rebuild_swapchain = true) (hfb : 0 < env.fb_w ∧ 0 < env.fb_h) :
    rebuild_if_pending env s = resize_window env (get_framebuffer_size env s) := by
  have hpos : (get_framebuffer_size env s).ctx.gui_win.Width > 0 ∧
      (get_framebuffer_size env s).ctx.gui_win.Height > 0 := hfb
  simp only [rebuild_if_pending, hflag, if_true, hpos, and_self]

/-! ### C5: a stale acquire, then the rebuild -/

/-- C5: let `s1` be the state after a loop iteration in which the window is
visible and the acquire call reports out-of-date or suboptimal, and `s2` the
state after the next iteration, in which the reported framebuffer size is
positive in both dimensions.  In the first iteration the rebuild flag is set
and the only call of the frame sequence is the acquire (no fence wait, no
submit, no present).  In the second the rebuild is called exactly once, before
`render_gui`, which is entered with the rebuild flag clear; on a visible window
the frame sequence then starts with the acquire, and when every call succeeds
it runs in full, from the acquire to the present, and the flag stays clear. -/
theorem stale_acquire_then_rebuild (e1 e2 : FrameEnv) (s s1 s2 : State)
    (hs1 : s1 = main_loop_body e1 s) (hs2 : s2 = main_loop_body e2 s1)
    (hvis1 : 0 < e1.display_x ∧ 0 < e1.display_y)
    (hacq : e1.acquire = VkResult.VK_ERROR_OUT_OF_DATE_KHR ∨
      e1.acquire = VkResult.VK_SUBOPTIMAL_KHR)
    (hfb : 0 < e2.fb_w ∧ 0 < e2.fb_h) :
    s1.ctx.rebuild_swapchain = true ∧
    (∃ sem, (new_calls s s1).filter Call.is_frame_step = [Call.vkAcquireNextImageKHR sem]) ∧
    (new_calls s1 s2).countP Call.is_rebuild = 1 ∧
    s2 = render_gui e2
      (resize_window e2 (get_framebuffer_size e2 (s1.emit Call.glfwPollEvents))) ∧
    (resize_window e2
      (get_framebuffer_size e2 (s1.emit Call.glfwPollEvents))).ctx.rebuild_swapchain = false ∧
    ((0 < e2.display_x ∧ 0 < e2.display_y) →
      ∃ sem rest, (new_calls s1 s2).filter Call.is_frame_step =
        Call.vkAcquireNextImageKHR sem :: rest) ∧
    ((0 < e2.display_x ∧ 0 < e2.display_y) →
      e2.acquire = VkResult.VK_SUCCESS → e2.wait_fences = VkResult.VK_SUCCESS →
      e2.reset_fences = VkResult.VK_SUCCESS → e2.reset_command_pool = VkResult.VK_SUCCESS →
      e2.begin_command_buffer = VkResult.VK_SUCCESS →
      e2.end_command_buffer = VkResult.VK_SUCCESS →
      e2.queue_submit = VkResult.VK_SUCCESS → e2.queue_present = VkResult.VK_SUCCESS →
      s2.ctx.rebuild_swapchain = false ∧
      ∃ sem fd, (new_calls s1 s2).filter Call.is_frame_step =
        [Call.vkAcquireNextImageKHR sem, Call.vkWaitForFences fd, Call.vkResetFences fd,
          Call.vkResetCommandPool fd, Call.vkBeginCommandBuffer fd,
          Call.vkCmdBeginRenderPass fd, Call.ImGui_ImplVulkan_RenderDrawData fd,
          Call.vkCmdEndRenderPass fd, Call.vkEndCommandBuffer fd,
          Call.vkQueueSubmit fd sem sem, Call.vkQueuePresentKHR sem fd]) ∧
    (e1.should_close = false → e2.should_close = false → main_loop [e1, e2] s = s2) := by
  -- first iteration
  have hst := render_frame_stale e1
    (build_draw_data e1 (rebuild_if_pending e1 (s.emit Call.glfwPollEvents))) hacq
  have hs1eq : s1 = render_frame e1
      (build_draw_data e1 (rebuild_if_pending e1 (s.emit Call.glfwPollEvents))) := by
    rw [hs1]
    unfold main_loop_body
    rw [render_gui_visible e1 _ hvis1, present_gui_skipped e1 _ hst.2]
  have hflag1 : s1.ctx.rebuild_swapchain = true := by
    rw [hs1eq]
    exact hst.2
  have hsteps1 : (new_calls s s1).filter Call.is_frame_step =
      [Call.vkAcquireNextImageKHR (to_uint8 (build_draw_data e1
        (rebuild_if_pending e1 (s.emit Call.glfwPollEvents))).ctx.gui_win.SemaphoreIndex)] := by
    rw [hs1, filter_steps_main_loop_body, render_gui_frame_steps e1 _ hvis1,
      present_gui_skipped e1 _ hst.2, hst.1]
    simp [new_calls]
  -- second iteration
  have hflagp : (s1.emit Call.glfwPollEvents).ctx.rebuild_swapchain = true := hflag1
  have hpend := rebuild_if_pending_positive e2 (s1.emit Call.glfwPollEvents) hflagp hfb
  have hs2eq : s2 = render_gui e2
      (resize_window e2 (get_framebuffer_size e2 (s1.emit Call.glfwPollEvents))) := by
    rw [hs2]
    unfold main_loop_body
    rw [hpend]
  have hcount : (new_calls s1 s2).countP Call.is_rebuild = 1 := by
    rw [hs2, main_loop_body_rebuild_count, if_pos ⟨hflag1, hfb⟩]
  have hsteps2 : ∀ hvis2 : 0 < e2.display_x ∧ 0 < e2.display_y,
      (new_calls s1 s2).filter Call.is_frame_step =
        new_calls (build_draw_data e2 (resize_window e2
            (get_framebuffer_size e2 (s1.emit Call.glfwPollEvents))))
          (render_frame e2 (build_draw_data e2 (resize_window e2
            (get_framebuffer_size e2 (s1.emit Call.glfwPollEvents))))) ++
        new_calls (render_frame e2 (build_draw_data e2 (resize_window e2
            (get_framebuffer_size e2 (s1.emit Call.glfwPollEvents)))))
          (present_gui e2 (render_frame e2 (build_draw_data e2 (resize_window e2
            (get_framebuffer_size e2 (s1.emit Call.glfwPollEvents)))))) := by
    intro hvis2
    rw [hs2, filter_steps_main_loop_body, hpend, render_gui_frame_steps e2 _ hvis2]
  refine ⟨hflag1, ⟨_, hsteps1⟩, hcount, hs2eq, rfl, ?_, ?_, ?_⟩
  · intro hvis2
    obtain ⟨rest, hrest⟩ := render_frame_acquire_first e2 (build_draw_data e2 (resize_window e2
      (get_framebuffer_size e2 (s1.emit Call.glfwPollEvents))))
    rw [hsteps2 hvis2, hrest]
    exact ⟨_, _, rfl⟩
  · intro hvis2 h1 h2 h3 h4 h5 h6 _ h8
    have hok := render_frame_ok e2 (build_draw_data e2 (resize_window e2
      (get_framebuffer_size e2 (s1.emit Call.glfwPollEvents)))) h1 h2 h3 h4 h5 h6
    have hbflag : (build_draw_data e2 (resize_window e2
        (get_framebuffer_size e2 (s1.emit Call.glfwPollEvents)))).ctx.rebuild_swapchain
        = false := by
      rw [(build_draw_data_spec e2 _).2.1]
      rfl
    have hrflag : (render_frame e2 (build_draw_data e2 (resize_window e2
        (get_framebuffer_size e2 (s1.emit Call.glfwPollEvents))))).ctx.rebuild_swapchain
        = false := by
      rw [hok.2.1, hbflag]
    refine ⟨?_, ?_⟩
    · rw [hs2eq, render_gui_visible e2 _ hvis2]
      exact present_gui_ok_flag e2 _ hrflag h8
    · rw [hsteps2 hvis2, hok.1, present_gui_issued e2 _ hrflag, hok.2.2.1, hok.2.2.2]
      exact ⟨_, _, rfl⟩
  · intro hc1 hc2
    simp [main_loop, hc1, hc2, hs1, hs2]

/-- C5, at a run of two iterations from a 640 by 480 window: the acquire
reports out-of-date, then the framebuffer is 800 by 600 and all calls
succeed. -/
theorem stale_acquire_then_rebuild_witness :
    (main_loop_body { answers_ok 640 480 with acquire := VkResult.VK_ERROR_OUT_OF_DATE_KHR }
      (state_with ⟨640, 480, 0, 2, 0⟩ false)).ctx.rebuild_swapchain = true ∧
    (new_calls
      (main_loop_body { answers_ok 640 480 with acquire := VkResult.VK_ERROR_OUT_OF_DATE_KHR }
        (state_with ⟨640, 480, 0, 2, 0⟩ false))
      (main_loop_body (answers_ok 800 600)
        (main_loop_body
          { answers_ok 640 480 with acquire := VkResult.VK_ERROR_OUT_OF_DATE_KHR }
          (state_with ⟨640, 480, 0, 2, 0⟩ false)))).countP Call.is_rebuild = 1 :=
  have h := stale_acquire_then_rebuild
    { answers_ok 640 480 with acquire := VkResult.VK_ERROR_OUT_OF_DATE_KHR }
    (answers_ok 800 600) (state_with ⟨640, 480, 0, 2, 0⟩ false) _ _ rfl rfl
    (by decide) (Or.inl rfl) (by decide)
  ⟨h.1, h.2.2.1⟩

/-! ### C8: the size requested from the rebuild -/

/-- The rebuild of a loop iteration requests `ctx->w` by `ctx->h`, whatever
size is reported; the reported size is in `gui_win.Width`, `gui_win.Height`
when the external call is entered. -/
lemma rebuild_requests_ctx_size (env : FrameEnv) (s : State)
    (hflag : s.ctx.rebuild_swapchain = true) (hfb : 0 < env.fb_w ∧ 0 < env.fb_h) :
    new_calls s (rebuild_if_pending env s) =
      [Call.glfwGetFramebufferSize,
        Call.ImGui_ImplVulkan_SetMinImageCount s.ctx.image_count,
        Call.ImGui_ImplVulkanH_CreateOrResizeWindow s.ctx.w s.ctx.h s.ctx.image_count] ∧
    (get_framebuffer_size env s).ctx.gui_win.Width = env.fb_w ∧
    (get_framebuffer_size env s).ctx.gui_win.Height = env.fb_h := by
  refine ⟨?_, rfl, rfl⟩
  rw [rebuild_if_pending_positive env s hflag hfb]
  apply new_calls_of_trace
  rw [resize_window_trace]
  simp [get_framebuffer_size, State.emit]

/-- C8, the code at the failing input: with `ctx->w`, `ctx->h` at 640 by 480,
a rebuild pending and a reported framebuffer size of 800 by 600, the loop
requests 640 by 480 from the build-or-resize call, not 800 by 600. -/
theorem rebuild_requests_stale_size :
    new_calls (state_with ⟨640, 480, 0, 2, 0⟩ true)
      (rebuild_if_pending (answers_ok 800 600) (state_with ⟨640, 480, 0, 2, 0⟩ true)) =
      [Call.glfwGetFramebufferSize, Call.ImGui_ImplVulkan_SetMinImageCount 2,
        Call.ImGui_ImplVulkanH_CreateOrResizeWindow 640 480 2] ∧
    Call.ImGui_ImplVulkanH_CreateOrResizeWindow 800 600 2 ∉
      (main_loop_body (answers_ok 800 600) (state_with ⟨640, 480, 0, 2, 0⟩ true)).trace := by
  decide

/-! ### C9: a failed step of the frame sequence -/

/-- C9, the code at the failing input: in a window with the rebuild flag
clear, when the acquire call fails with `VK_ERROR_DEVICE_LOST` (and writes no
image index) `render_frame` returns at once, but `render_gui` still calls
`present_gui`: the present call is issued, and as it succeeds `SemaphoreIndex`
goes from 0 to 1.  The same happens when the fence wait fails. -/
theorem failed_step_still_presents :
    (new_calls (state_with ⟨640, 480, 0, 2, 0⟩ false)
      (main_loop_body
        { answers_ok 640 480 with
          acquire := VkResult.VK_ERROR_DEVICE_LOST, image_index := none }
        (state_with ⟨640, 480, 0, 2, 0⟩ false))).filter Call.is_frame_step =
      [Call.vkAcquireNextImageKHR 0, Call.vkQueuePresentKHR 0 0] ∧
    (main_loop_body
      { answers_ok 640 480 with
        acquire := VkResult.VK_ERROR_DEVICE_LOST, image_index := none }
      (state_with ⟨640, 480, 0, 2, 0⟩ false)).ctx.gui_win.SemaphoreIndex = 1 ∧
    (new_calls (state_with ⟨640, 480, 0, 2, 0⟩ false)
      (main_loop_body
        { answers_ok 640 480 with wait_fences := VkResult.VK_ERROR_DEVICE_LOST }
        (state_with ⟨640, 480, 0, 2, 0⟩ false))).filter Call.is_frame_step =
      [Call.vkAcquireNextImageKHR 0, Call.vkWaitForFences 0, Call.vkQueuePresentKHR 0 0] ∧
    (main_loop_body
      { answers_ok 640 480 with wait_fences := VkResult.VK_ERROR_DEVICE_LOST }
      (state_with ⟨640, 480, 0, 2, 0⟩ false)).ctx.gui_win.SemaphoreIndex = 1 := by
  decide

/-! ### C10: what triggers the rebuild -/

/-- What `select_gpu` does is determined by the value of `gpu` at the read:
an early return leaves the context alone, an unassigned `gpu` makes the read
undefined, an assigned one reads `gpus[gpu]`. -/
lemma select_gpu_of_gpu_at_read (env : GpuEnum) (ctx : context) :
    (gpu_at_read env = none → ∃ err, select_gpu env ctx = Outcome.ret err ctx) ∧
    (gpu_at_read env = some none → select_gpu env ctx = Outcome.unassigned_read env.err) ∧
    (∀ k, gpu_at_read env = some (some k) →
      select_gpu env ctx = read_gpu env.err ctx env.gpus k) := by
  unfold gpu_at_read select_gpu
  refine ⟨?_, ?_, ?_⟩
  · intro h
    split_ifs at h ⊢
    · exact ⟨_, rfl⟩
    · exact ⟨_, rfl⟩
  · intro h
    split_ifs at h ⊢
    · rfl
    · simp at h
  · intro k h
    split_ifs at h ⊢
    · simp at h
    · simp only [Option.some.injEq] at h
      rw [← h]

/-- On the path where the second enumeration succeeds with a non-empty list,
the read is reached with `gpu` assigned and less than the device count. -/
lemma gpu_at_read_success (env : GpuEnum) (hcnt : env.cnt ≠ 0)
    (hmalloc : env.malloc_ok = true) (herr : env.err = VkResult.VK_SUCCESS)
    (hne : env.gpus ≠ []) :
    ∃ k, gpu_at_read env = some (some k) ∧ k < env.gpus.length := by
  refine ⟨select_gpu_loop env.gpus 0 0, by simp [gpu_at_read, hcnt, hmalloc, herr], ?_⟩
  rcases select_gpu_loop_spec env.gpus 0 0 with ⟨_, hr⟩ | ⟨k, d, hk, _, hr, _⟩
  · rw [hr]
    exact List.length_pos.mpr hne
  · rw [hr, zero_add]
    exact (List.getElem?_eq_some.mp hk).1

/-- On the path where the second enumeration does not return `VK_SUCCESS`, the
read is reached with `gpu` never assigned, whatever the devices are. -/
lemma gpu_at_read_error (env : GpuEnum) (ctx : context) (hcnt : env.cnt ≠ 0)
    (hmalloc : env.malloc_ok = true) (herr : env.err ≠ VkResult.VK_SUCCESS) :
    gpu_at_read env = some none ∧
    select_gpu env ctx = Outcome.unassigned_read env.err := by
  simp [gpu_at_read, select_gpu, hcnt, hmalloc, herr]

/-- C11, the code at the failing input: when the first enumeration reports one
device and the second returns `VK_ERROR_INITIALIZATION_FAILED`, or writes one
device and returns `VK_INCOMPLETE`, the `goto out` reaches the read
`gpus[gpu]` with `gpu` never assigned, so that no element of the enumerated
list is selected. -/
theorem select_gpu_error_path_reads_unassigned :
    gpu_at_read
      { cnt := 1, malloc_ok := true, err := VkResult.VK_ERROR_INITIALIZATION_FAILED,
        gpus := [] } = some none ∧
    select_gpu
      { cnt := 1, malloc_ok := true, err := VkResult.VK_ERROR_INITIALIZATION_FAILED,
        gpus := [] } ctx_ =
      Outcome.unassigned_read VkResult.VK_ERROR_INITIALIZATION_FAILED ∧
    gpu_at_read
      { cnt := 1, malloc_ok := true, err := VkResult.VK_INCOMPLETE,
        gpus := [⟨10, VkPhysicalDeviceType.VK_PHYSICAL_DEVICE_TYPE_DISCRETE_GPU⟩] } =
      some none ∧
    select_gpu
      { cnt := 1, malloc_ok := true, err := VkResult.VK_INCOMPLETE,
        gpus := [⟨10, VkPhysicalDeviceType.VK_PHYSICAL_DEVICE_TYPE_DISCRETE_GPU⟩] } ctx_ =
      Outcome.unassigned_read VkResult.VK_INCOMPLETE := by
  decide

end ImguiVulkan
